import Mathlib

/-!
Verification development for the `csv_fetcher` core of the
portuguese_energy_price_tracker Home Assistant integration.

The Python sources embedded here are
`custom_components/portuguese_energy_price_tracker/csv_fetcher.py`
(cache, fetch retry loop, `parse_csv`, `get_prices`) and
`custom_components/energy_price_tracker/csv_fetcher.py`
(`aggregate_to_hourly`; its `parse_csv` is textually identical to the
former).

Modelling conventions, stated once here:

* Python `float` arithmetic is modelled by exact rational arithmetic on ℚ,
  and `round(x, 5)` by round-half-to-even on exact decimals (`round5`).
  All concrete counterexamples below were chosen far from representation
  noise so that they hold under IEEE-754 doubles as well.
* `datetime` values are modelled structurally (`DateD`, `Timestamp`);
  the code stores `dt.isoformat()` strings and re-parses them with
  `datetime.fromisoformat`, a round trip, so entries carry the timestamp
  itself.  Time zones (`dt_util.as_local`) attach a fixed local zone and
  never change the calendar fields being compared; they are omitted.
* `csv.DictReader` is modelled as: split the text on newlines, drop empty
  lines (`DictReader` skips blank rows), split each line on commas, and
  map header names to positions (first occurrence; quoting, `\r\n`
  endings and duplicate header names are not exercised by any claim).
  A data row shorter than the header yields absent fields (Python would
  store `restval = None`; no claim exercises short matching rows).
* Python `dict` is modelled by insertion-ordered association lists.
* Wall-clock time is a natural number of seconds (`Clock.time`) together
  with the current calendar date (`Clock.today`); the several
  `datetime.now()` calls inside one `get_prices` invocation are modelled
  as a single instant.
* Network I/O is an oracle: `fetch_current_csv` consumes a stream of
  per-attempt outcomes; at the `get_prices` level the environment fixes
  the outcome of each fetch channel and the model counts invocations.
-/

/-! ### Insertion-ordered association lists (Python `dict`) -/

def alookup {α : Type} [DecidableEq α] {β : Type} (k : α) : List (α × β) → Option β
  | [] => none
  | (k', v) :: rest => if k' = k then some v else alookup k rest

def ainsert {α : Type} [DecidableEq α] {β : Type} (k : α) (v : β) : List (α × β) → List (α × β)
  | [] => [(k, v)]
  | (k', v') :: rest => if k' = k then (k, v) :: rest else (k', v') :: ainsert k v rest

def aremove {α : Type} [DecidableEq α] {β : Type} (k : α) : List (α × β) → List (α × β)
  | [] => []
  | (k', v') :: rest => if k' = k then rest else (k', v') :: aremove k rest

/-! ### Character-list utilities (Python `str` operations) -/

/-- `s.split(c)` for a one-character separator. -/
def splitOnChar (c : Char) : List Char → List (List Char)
  | [] => [[]]
  | x :: xs =>
    let r := splitOnChar c xs
    if x = c then [] :: r
    else
      match r with
      | [] => [[x]]
      | y :: ys => (x :: y) :: ys

/-- Remove the listed characters from both ends: Python `s.strip(chars)`. -/
def stripChars (cs : List Char) (l : List Char) : List Char :=
  ((l.dropWhile (fun c => cs.contains c)).reverse.dropWhile (fun c => cs.contains c)).reverse

/-- ASCII whitespace, the characters Python `str.strip()` removes
(non-ASCII whitespace is not exercised by any claim). -/
def pyWsChars : List Char := [' ', '\t', '\n', '\r', '\x0b', '\x0c']

/-- Python `s.strip()`. -/
def stripPyWs (l : List Char) : List Char := stripChars pyWsChars l

def digitVal (c : Char) : Nat := c.toNat - 48

def allDigits (l : List Char) : Bool := l.all (fun c => c.isDigit)

def digitsToNat (l : List Char) : Nat := l.foldl (fun a c => a * 10 + digitVal c) 0

/-- Python `int(s)`: optional surrounding whitespace, optional sign, a
nonempty run of ASCII digits (underscores and unicode digits are not
exercised by any claim). -/
def parsePyInt (l : List Char) : Option Int :=
  let t := stripPyWs l
  match t with
  | [] => none
  | '-' :: ds => if ds ≠ [] ∧ allDigits ds then some (-(digitsToNat ds : Int)) else none
  | '+' :: ds => if ds ≠ [] ∧ allDigits ds then some (digitsToNat ds : Int) else none
  | ds => if allDigits ds then some (digitsToNat ds : Int) else none

/-! Exact rational arithmetic.  The `Rat` operations shipped by Batteries
are `@[irreducible]`, which blocks kernel evaluation of concrete values,
so the model uses its own operations built from `mkRat`; the bridge
lemmas `qAdd_eq_add`, `qMul_eq_mul`, `qDiv_eq_div`, `qNeg_eq_neg` below
prove they agree with the standard ℚ operations. -/

def qAdd (a b : ℚ) : ℚ := mkRat (a.num * (b.den : Int) + b.num * (a.den : Int)) (a.den * b.den)

def qMul (a b : ℚ) : ℚ := mkRat (a.num * b.num) (a.den * b.den)

def qNeg (a : ℚ) : ℚ := mkRat (-a.num) a.den

def qInv (a : ℚ) : ℚ :=
  if a.num < 0 then mkRat (-(a.den : Int)) a.num.natAbs else mkRat (a.den : Int) a.num.natAbs

def qDiv (a b : ℚ) : ℚ := qMul a (qInv b)

def intQ (n : Int) : ℚ := mkRat n 1

def qSum (l : List ℚ) : ℚ := l.foldr qAdd (intQ 0)

/-- Value of an unsigned decimal literal `ip.fp` as a rational. -/
def decValue (ip fp : List Char) : ℚ :=
  mkRat ((digitsToNat ip : Int) * (10 : Int) ^ fp.length + (digitsToNat fp : Int))
    ((10 : Nat) ^ fp.length)

/-- Python `float(s)` restricted to finite decimal literals: optional
sign, digits with an optional decimal point (`"12"`, `"12.", ".5"`).
Exponents, `inf`/`nan` and underscores are not exercised by any claim. -/
def parsePyFloat (l : List Char) : Option ℚ :=
  let t := stripPyWs l
  let core := fun (u : List Char) =>
    match splitOnChar '.' u with
    | [ds] => if ds ≠ [] ∧ allDigits ds then some (decValue ds []) else none
    | [ip, fp] =>
      if (ip ≠ [] ∨ fp ≠ []) ∧ allDigits ip ∧ allDigits fp then some (decValue ip fp) else none
    | _ => none
  match t with
  | '-' :: u => (core u).map qNeg
  | '+' :: u => core u
  | u => core u

/-! ### Exact decimal rounding (Python `round(x, 5)`) -/

/-- Round a rational to the nearest integer, ties to even
(the rounding of Python `round`): `f` is the floor and `r` the
remainder, so the fractional part is `r / den`. -/
def rhe (q : ℚ) : ℤ :=
  let f : ℤ := Int.fdiv q.num q.den
  let r : ℤ := q.num - f * q.den
  if 2 * r < (q.den : Int) then f
  else if (q.den : Int) < 2 * r then f + 1
  else if f % 2 = 0 then f else f + 1

/-- Python `round(q, 5)` on exact decimals. -/
def round5 (q : ℚ) : ℚ := mkRat (rhe (qMul q (intQ 100000))) 100000

/-! ### Dates and timestamps -/

structure DateD where
  y : Nat
  m : Nat
  d : Nat
deriving DecidableEq, Repr, Inhabited

/-- Calendar comparison `a.date() < b.date()`. -/
def dateLt (a b : DateD) : Bool :=
  a.y < b.y ∨ (a.y = b.y ∧ (a.m < b.m ∨ (a.m = b.m ∧ a.d < b.d)))

def isLeap (y : Nat) : Bool := (y % 4 = 0 ∧ y % 100 ≠ 0) ∨ y % 400 = 0

def daysInMonth (y m : Nat) : Nat :=
  if m = 2 then (if isLeap y then 29 else 28)
  else if m = 4 ∨ m = 6 ∨ m = 9 ∨ m = 11 then 30
  else 31

/-- `date + timedelta(days=1)`. -/
def nextDay (d : DateD) : DateD :=
  if d.d < daysInMonth d.y d.m then ⟨d.y, d.m, d.d + 1⟩
  else if d.m < 12 then ⟨d.y, d.m + 1, 1⟩
  else ⟨d.y + 1, 1, 1⟩

structure Timestamp where
  date : DateD
  hour : Nat
  minute : Nat
deriving DecidableEq, Repr, Inhabited

/-- The bounds under which `datetime(y, m, d, h, min, 0)` succeeds
(outside them it raises `ValueError`). -/
def dtValid (y m d : Int) (hour minute : Nat) : Bool :=
  1 ≤ y ∧ y ≤ 9999 ∧ 1 ≤ m ∧ m ≤ 12 ∧ 1 ≤ d ∧ d ≤ (daysInMonth y.toNat m.toNat : Int) ∧
    hour ≤ 23 ∧ minute ≤ 59

/-- `dt.replace(minute=0, second=0, microsecond=0)` (seconds are not
modelled; parsed timestamps have none). -/
def hourKey (t : Timestamp) : Timestamp := { t with minute := 0 }

/-- `datetime` comparison: lexicographic on the calendar fields. -/
def tsLeb (a b : Timestamp) : Bool :=
  a.date.y < b.date.y ∨ (a.date.y = b.date.y ∧
    (a.date.m < b.date.m ∨ (a.date.m = b.date.m ∧
      (a.date.d < b.date.d ∨ (a.date.d = b.date.d ∧
        (a.hour < b.hour ∨ (a.hour = b.hour ∧ a.minute ≤ b.minute)))))))

def TsLe (a b : Timestamp) : Prop := tsLeb a b = true

instance : DecidableRel TsLe := fun a b => by unfold TsLe; infer_instance

instance : IsTotal Timestamp TsLe := by
  constructor
  intro a b
  simp only [TsLe, tsLeb, decide_eq_true_eq, Bool.or_eq_true, Bool.and_eq_true]
  omega

instance : IsTrans Timestamp TsLe := by
  constructor
  intro a b c
  simp only [TsLe, tsLeb, decide_eq_true_eq, Bool.or_eq_true, Bool.and_eq_true]
  omega

/-! ### Formatting helpers (`strftime("%Y-%m-%d")`) -/

def pad2 (n : Nat) : String := if n < 10 then "0" ++ Nat.repr n else Nat.repr n

def pad4 (n : Nat) : String :=
  if n < 10 then "000" ++ Nat.repr n
  else if n < 100 then "00" ++ Nat.repr n
  else if n < 1000 then "0" ++ Nat.repr n
  else Nat.repr n

def dateKeyStr (d : DateD) : String := pad4 d.y ++ "-" ++ pad2 d.m ++ "-" ++ pad2 d.d

def localFileName (d : DateD) : String := "prices_" ++ dateKeyStr d ++ ".csv"

/-! Bridge lemmas: the executable arithmetic agrees with ℚ. -/

theorem qAdd_eq_add (a b : ℚ) : qAdd a b = a + b := by
  rw [qAdd, Rat.mkRat_eq_div]
  conv_rhs => rw [← Rat.num_div_den a, ← Rat.num_div_den b]
  have ha : ((a.den : ℚ)) ≠ 0 := by exact_mod_cast a.den_nz
  have hb : ((b.den : ℚ)) ≠ 0 := by exact_mod_cast b.den_nz
  field_simp

theorem qMul_eq_mul (a b : ℚ) : qMul a b = a * b := by
  rw [qMul, Rat.mkRat_eq_div]
  conv_rhs => rw [← Rat.num_div_den a, ← Rat.num_div_den b]
  rw [div_mul_div_comm]
  push_cast
  ring_nf

theorem qNeg_eq_neg (a : ℚ) : qNeg a = -a := by
  rw [qNeg, Rat.mkRat_eq_div]
  conv_rhs => rw [← Rat.num_div_den a]
  push_cast
  ring

theorem qInv_eq_inv (a : ℚ) : qInv a = a⁻¹ := by
  have hA : a = ((a.num : ℚ)) / ((a.den : ℚ)) := (Rat.num_div_den a).symm
  rcases lt_trichotomy a.num 0 with h | h | h
  · have ha : ((a.den : ℚ)) ≠ 0 := by exact_mod_cast a.den_nz
    have hn : ((a.num : ℚ)) ≠ 0 := by exact_mod_cast Int.ne_of_lt h
    rw [qInv, if_pos h, Rat.mkRat_eq_div]
    refine eq_inv_of_mul_eq_one_left ?_
    have habs : ((a.num.natAbs : ℚ)) = -((a.num : ℚ)) := by
      rw [Int.cast_natAbs]
      exact_mod_cast abs_of_neg h
    rw [habs]
    nth_rewrite 3 [hA]
    push_cast
    field_simp
  · have h0 : a = 0 := Rat.num_eq_zero.mp h
    subst h0
    rw [inv_zero]
    decide
  · have ha : ((a.den : ℚ)) ≠ 0 := by exact_mod_cast a.den_nz
    have hn : ((a.num : ℚ)) ≠ 0 := by exact_mod_cast Int.ne_of_gt h
    rw [qInv, if_neg (by omega), Rat.mkRat_eq_div]
    refine eq_inv_of_mul_eq_one_left ?_
    have habs : ((a.num.natAbs : ℚ)) = ((a.num : ℚ)) := by
      rw [Int.cast_natAbs]
      exact_mod_cast abs_of_pos h
    rw [habs]
    nth_rewrite 3 [hA]
    push_cast
    field_simp

theorem qDiv_eq_div (a b : ℚ) : qDiv a b = a / b := by
  rw [qDiv, qMul_eq_mul, qInv_eq_inv, div_eq_mul_inv]

theorem intQ_eq_cast (n : Int) : intQ n = (n : ℚ) := by
  rw [intQ, Rat.mkRat_eq_div]
  simp

example : dateKeyStr ⟨2025, 11, 18⟩ = "2025-11-18" := by decide
example : round5 (mkRat 123456 1000000) = mkRat 12346 100000 := by decide
example : round5 (qMul (mkRat 123456 1000000) (qAdd (intQ 1) (mkRat 23 100))) =
    mkRat 15185 100000 := by decide
example : parsePyFloat "0.123456".toList = some (mkRat 123456 1000000) := by decide
example : parsePyInt " 18".toList = some 18 := by decide
example : splitOnChar '/' "18/11/2025".toList =
    ["18".toList, "11".toList, "2025".toList] := by decide

/-! ### The parsed record (`parse_csv` output dictionaries) -/

/-- One element of the list built by `parse_csv`:
`{"datetime", "interval", "price", "price_w_vat", "market_price", "tar_cost"}`.
The code stores `dt.isoformat()` and later re-parses it with
`datetime.fromisoformat`; the timestamp is kept structurally. -/
structure PriceEntry where
  dt : Timestamp
  interval : String
  price : ℚ
  price_w_vat : ℚ
  market_price : ℚ
  tar_cost : ℚ
deriving DecidableEq, Repr, Inhabited

/-- `TARIFF_MAPPING_REVERSE`: config code to CSV display name. -/
def TARIFF_MAPPING_REVERSE : List (String × String) :=
  [("SIMPLE", "Simples"),
   ("BIHORARIO_DIARIO", "Bi-horário - Ciclo Diário"),
   ("BIHORARIO_SEMANAL", "Bi-horário - Ciclo Semanal"),
   ("TRIHORARIO_DIARIO", "Tri-horário - Ciclo Diário"),
   ("TRIHORARIO_SEMANAL", "Tri-horário - Ciclo Semanal"),
   ("TRIHORARIO_DIARIO_HV", "Tri-horário > 20.7 kVA - Ciclo Diário"),
   ("TRIHORARIO_SEMANAL_HV", "Tri-horário > 20.7 kVA - Ciclo Semanal")]

/-! ### `csv.DictReader` (restricted to the unquoted comma/newline form) -/

/-- Field lookup through the header mapping: `row.get(name)`.
Returns `none` both for a column absent from the header (`dict.get`
miss) and for a row shorter than the header. -/
def rowGet (header fields : List (List Char)) (name : List Char) : Option (List Char) :=
  match header.findIdx? (fun h => h = name) with
  | none => none
  | some i => fields.get? i

/-- `re.search(r'\[(\d\d):(\d\d)-', s)` at one position. -/
def matchIntervalAt (l : List Char) : Option (Nat × Nat) :=
  match l with
  | x0 :: x1 :: x2 :: x3 :: x4 :: x5 :: x6 :: _ =>
    if x0 = '[' ∧ x1.isDigit ∧ x2.isDigit ∧ x3 = ':' ∧ x4.isDigit ∧ x5.isDigit ∧ x6 = '-'
    then some (digitVal x1 * 10 + digitVal x2, digitVal x4 * 10 + digitVal x5)
    else none
  | _ => none

/-- Leftmost match of the interval pattern: `re.search`. -/
def findIntervalStart : List Char → Option (Nat × Nat)
  | [] => none
  | x :: xs =>
    match matchIntervalAt (x :: xs) with
    | some r => some r
    | none => findIntervalStart xs

/-- Strip a leading byte-order marker: `content.startswith('﻿')`. -/
def stripBom (s : List Char) : List Char :=
  match s with
  | c :: rest => if c = '\uFEFF' then rest else c :: rest
  | [] => []

/-- The loop body of `parse_csv` for one row.  `none` covers the three
silent row outcomes: provider/tariff filter mismatch, the
`skipped_invalid` class (missing `dia`/`intervalo` key, bad date split,
no interval match, non-integer date parts, `datetime` out of range) and
the `skipped_nan` class (blank or non-decimal `col`/`omie`/`tar`).
The two skip counters are only logged and are not modelled. -/
def parseRow (header fields : List (List Char)) (provider tariffCsv : List Char)
    (vat_rate : Int) : Option PriceEntry :=
  if rowGet header fields "tarifario".toList ≠ some provider ∨
      rowGet header fields "opcao".toList ≠ some tariffCsv then none
  else
    match rowGet header fields "dia".toList with
    | none => none
    | some dia =>
      match rowGet header fields "intervalo".toList with
      | none => none
      | some intervalo =>
        match splitOnChar '/' dia with
        | [dayS, monthS, yearS] =>
          match findIntervalStart intervalo with
          | none => none
          | some hm =>
            match parsePyInt yearS, parsePyInt monthS, parsePyInt dayS with
            | some y, some m, some d =>
              if dtValid y m d hm.1 hm.2 then
                let ts : Timestamp := ⟨⟨y.toNat, m.toNat, d.toNat⟩, hm.1, hm.2⟩
                let colS := stripPyWs ((rowGet header fields "col".toList).getD [])
                let omieS := stripPyWs ((rowGet header fields "omie".toList).getD [])
                let tarS := stripPyWs ((rowGet header fields "tar".toList).getD [])
                if colS = [] ∨ omieS = [] ∨ tarS = [] then none
                else
                  match parsePyFloat colS, parsePyFloat omieS, parsePyFloat tarS with
                  | some colQ, some omieQ, some tarQ =>
                    some { dt := ts
                           interval := String.mk intervalo
                           price := round5 colQ
                           price_w_vat := round5 (qMul colQ (qAdd (intQ 1)
                             (qDiv (intQ vat_rate) (intQ 100))))
                           market_price := round5 omieQ
                           tar_cost := round5 tarQ }
                  | _, _, _ => none
              else none
            | _, _, _ => none
        | _ => none

/-- `parse_csv(content, provider, tariff, vat_rate)`. -/
def parse_csv (content : String) (provider tariff : String) (vat_rate : Int) :
    List PriceEntry :=
  let tariffCsv := (alookup tariff TARIFF_MAPPING_REVERSE).getD tariff
  let chars := stripBom content.toList
  match (splitOnChar '\n' chars).filter (fun l => l ≠ []) with
  | [] => []
  | headerLine :: dataLines =>
    let header := splitOnChar ',' headerLine
    dataLines.filterMap
      (fun line => parseRow header (splitOnChar ',' line) provider.toList tariffCsv.toList vat_rate)

example :
    parse_csv "tarifario,opcao,dia,intervalo,col,omie,tar\nP,X,18/11/2025,[00:00-00:15[,0.18,0.1,0.05\n"
      "P" "X" 23 =
    [{ dt := ⟨⟨2025, 11, 18⟩, 0, 0⟩
       interval := "[00:00-00:15["
       price := mkRat 18 100
       price_w_vat := mkRat 2214 10000
       market_price := mkRat 1 10
       tar_cost := mkRat 5 100 }] := by decide

example :
    parse_csv "tarifario,opcao,dia,intervalo,col,omie,tar\nGalp Plano Dinâmico,Simples,18/11/2025,[00:00-00:15[,0.18,0.1,0.05\n"
      "Galp Plano Dinâmico" "SIMPLE" 23 =
    [{ dt := ⟨⟨2025, 11, 18⟩, 0, 0⟩
       interval := "[00:00-00:15["
       price := mkRat 18 100
       price_w_vat := mkRat 2214 10000
       market_price := mkRat 1 10
       tar_cost := mkRat 5 100 }] := by decide

example : parse_csv "h" "P" "X" 23 = [] := by decide
example : parse_csv "" "P" "X" 23 = [] := by decide

/-! ### `aggregate_to_hourly` (energy_price_tracker variant) -/

/-- One aggregated dictionary: `{"datetime", "interval", "price", "price_w_vat"}`. -/
structure HourlyEntry where
  dt : Timestamp
  interval : String
  price : ℚ
  price_w_vat : ℚ
deriving DecidableEq, Repr, Inhabited

/-- Distinct group keys in first-insertion order (`defaultdict` keys). -/
def dedupFirst : List Timestamp → List Timestamp
  | [] => []
  | k :: ks => k :: (dedupFirst ks).filter (fun x => x ≠ k)

/-- The synthesized hourly label:
`"[" + first.split("-")[0].strip("[ ") + "-" + last.split("-")[1].strip("] ") + "["`.
A label without any `-` would make Python raise `IndexError` on `[1]`;
such labels cannot be produced by `parse_csv`, whose interval pattern
requires a `-`, so the missing-index case is modelled as the empty
segment. -/
def synthInterval (firstI lastI : String) : String :=
  let startT := stripChars ['[', ' '] ((splitOnChar '-' firstI.toList).headD [])
  let endT := stripChars [']', ' '] (((splitOnChar '-' lastI.toList).drop 1).headD [])
  String.mk ('[' :: startT ++ '-' :: endT ++ ['['])

/-- The body of the second loop of `aggregate_to_hourly` for one hour
key: collect the group members in input order (`defaultdict` append
order), average the two price fields, and synthesize the label from the
first and last member.  A group is never empty, so the `len` divisor is
never zero (Python would raise `ZeroDivisionError` otherwise). -/
def hourRecord (prices : List PriceEntry) (k : Timestamp) : HourlyEntry :=
  let members := prices.filter (fun p => decide (hourKey p.dt = k))
  let n := members.length
  let avg := qDiv (qSum (members.map (fun p => p.price))) (intQ (n : Int))
  let avgV := qDiv (qSum (members.map (fun p => p.price_w_vat))) (intQ (n : Int))
  let firstI := (members.headD default).interval
  let lastI := (members.getLastD default).interval
  { dt := k
    interval := synthInterval firstI lastI
    price := round5 avg
    price_w_vat := round5 avgV }

/-- `aggregate_to_hourly(prices)`: group by hour-floored timestamp and
emit one averaged record per group, sorted ascending by key
(`sorted(hourly_data.items())`). -/
def aggregate_to_hourly (prices : List PriceEntry) : List HourlyEntry :=
  (List.insertionSort TsLe (dedupFirst (prices.map (fun p => hourKey p.dt)))).map
    (hourRecord prices)

example :
    aggregate_to_hourly
      [{ dt := ⟨⟨2025, 11, 18⟩, 0, 0⟩, interval := "[00:00-00:15[", price := mkRat 1 10,
         price_w_vat := mkRat 1 10, market_price := 0, tar_cost := 0 },
       { dt := ⟨⟨2025, 11, 18⟩, 0, 15⟩, interval := "[00:15-00:30[", price := mkRat 3 10,
         price_w_vat := mkRat 3 10, market_price := 0, tar_cost := 0 }] =
    [{ dt := ⟨⟨2025, 11, 18⟩, 0, 0⟩, interval := "[00:00-00:30[[", price := mkRat 2 10,
       price_w_vat := mkRat 2 10 }] := by decide

/-! ### `fetch_current_csv`: the retry loop -/

/-- The observable outcome of one `session.get` attempt. -/
inductive Attempt where
  | timeout : Attempt
  | resp : Nat → String → Attempt
deriving DecidableEq, Repr

/-- One iteration of the `for attempt in range(max_retries)` loop with
`fuel` attempts remaining (`fuel = 1` means this is the final attempt).
A 404 and any other non-200 status raise inside the `try`, so both are
caught by the generic `except Exception` handler and retried; only the
final attempt surfaces an error.  The returned `Nat` is the number of
attempts performed. -/
def fetchCurrentAux (responses : Nat → Attempt) (attempt : Nat) :
    Nat → Except String String × Nat
  | 0 => (Except.error "", attempt)
  | fuel + 1 =>
    match responses attempt with
    | Attempt.timeout =>
      if fuel = 0 then
        (Except.error "Timeout fetching CSV from GitHub after all retries", attempt + 1)
      else fetchCurrentAux responses (attempt + 1) fuel
    | Attempt.resp status body =>
      if status = 404 then
        if fuel = 0 then
          (Except.error ("Error fetching CSV after all retries: " ++
            "CSV file not found (HTTP 404)"), attempt + 1)
        else fetchCurrentAux responses (attempt + 1) fuel
      else if status ≠ 200 then
        if fuel = 0 then
          (Except.error ("Error fetching CSV after all retries: " ++
            "Failed to fetch CSV: HTTP " ++ Nat.repr status), attempt + 1)
        else fetchCurrentAux responses (attempt + 1) fuel
      else (Except.ok body, attempt + 1)

/-- `fetch_current_csv(max_retries=3)` over a stream of attempt
outcomes; `max_retries = 0` is never used (Python would fall out of the
loop and return `None`).  Returns the result together with the number
of attempts performed. -/
def fetch_current_csv (responses : Nat → Attempt) (max_retries : Nat := 3) :
    Except String String × Nat :=
  fetchCurrentAux responses 0 max_retries

example :
    fetch_current_csv (fun _ => Attempt.resp 200 "data") =
      (Except.ok "data", 1) := rfl
example :
    fetch_current_csv (fun _ => Attempt.resp 404 "") =
      (Except.error "Error fetching CSV after all retries: CSV file not found (HTTP 404)", 3) := rfl

/-! ### Fetcher state and `get_prices` -/

/-- Mutable state of a `CSVDataFetcher`: the two dictionaries of
`CSVDataCache` (`_cache`, keyed by the `YYYY-MM-DD` date key, holding
per-`provider_tariff` result lists; `_cache_times`) and the data
directory (one file `prices_<date>.csv` per date). -/
structure FetcherState where
  cache : List (String × List (String × List PriceEntry))
  cacheTimes : List (String × Nat)
  localStore : List (String × String)
deriving DecidableEq, Repr

/-- `datetime.now()`: current calendar date and wall-clock seconds. -/
structure Clock where
  today : DateD
  time : Nat
deriving DecidableEq, Repr

/-- Outcomes the network would produce: the final result of a
`fetch_current_csv()` call and of a `fetch_historical_csv()` call
(error strings are the surfaced exception messages). -/
structure FetchEnv where
  current : Except String String
  historical : Except String String
deriving Repr

/-- Result of `get_prices`: the returned list (or the propagated
exception message), the state after the call, and how many times each
fetch channel was invoked. -/
structure GPResult where
  result : Except String (List PriceEntry)
  state : FetcherState
  currentFetches : Nat
  historicalFetches : Nat
deriving Repr

/-- `CACHE_DURATION = timedelta(hours=1)` in seconds. -/
def CACHE_DURATION : Nat := 3600

/-- `CSVDataCache.get(date_key, bypass_cache)` together with its lazy
expiry deletion.  A `_cache` entry without a `_cache_times` entry is
treated as expired (Python would raise `KeyError` on the second `del`;
the state is unreachable since every write sets both keys).  A clock
that went backwards gives a negative `timedelta`, which compares below
`CACHE_DURATION`, exactly like truncated `Nat` subtraction. -/
def cacheGet (st : FetcherState) (now : Nat) (dateKey : String) (bypass : Bool) :
    Option (List (String × List PriceEntry)) × FetcherState :=
  if bypass then (none, st)
  else
    match alookup dateKey st.cache with
    | none => (none, st)
    | some inner =>
      match alookup dateKey st.cacheTimes with
      | some t =>
        if now - t < CACHE_DURATION then (some inner, st)
        else (none, { st with cache := aremove dateKey st.cache,
                              cacheTimes := aremove dateKey st.cacheTimes })
      | none => (none, { st with cache := aremove dateKey st.cache,
                                 cacheTimes := aremove dateKey st.cacheTimes })

/-- The inline memory-cache write of `get_prices`:
`_cache.setdefault(date_key, {})[provider_tariff] = prices;`
`_cache_times[date_key] = datetime.now()`. -/
def cachePutRaw (st : FetcherState) (now : Nat) (dateKey ptKey : String)
    (prices : List PriceEntry) : FetcherState :=
  { st with
    cache := ainsert dateKey (ainsert ptKey prices ((alookup dateKey st.cache).getD [])) st.cache
    cacheTimes := ainsert dateKey now st.cacheTimes }

/-- `save_to_local(date, content)`. -/
def save_to_local (st : FetcherState) (d : DateD) (content : String) : FetcherState :=
  { st with localStore := ainsert (localFileName d) content st.localStore }

/-- `load_from_local(date)`: `None` when the file does not exist,
otherwise the text with a leading BOM removed. -/
def load_from_local (st : FetcherState) (d : DateD) : Option String :=
  (alookup (localFileName d) st.localStore).map (fun c => String.mk (stripBom c.toList))

/-- Restriction to the target calendar date:
`[p for p in prices if fromisoformat(p["datetime"]).date() == target.date()]`. -/
def filterToDate (l : List PriceEntry) (d : DateD) : List PriceEntry :=
  l.filter (fun p => decide (p.dt.date = d))

/-- The conditional disk write-back of `get_prices` (its `should_save`
logic): past dates skip it (they were already saved), today and
tomorrow save the fresh content when there is no existing file, when
the existing file is empty (falsy) or when the fresh filtered count
strictly exceeds the existing filtered count, and any other date never
saves. -/
def writeBackStore (st : FetcherState) (clock : Clock) (provider tariff : String)
    (vat_rate : Int) (target : DateD) (csvContent : String) : FetcherState :=
  if dateLt target clock.today then st
  else if target = clock.today ∨ target = nextDay clock.today then
    match load_from_local st target with
    | some existing =>
      if existing ≠ "" then
        if (filterToDate (parse_csv csvContent provider tariff vat_rate) target).length >
            (filterToDate (parse_csv existing provider tariff vat_rate) target).length
        then save_to_local st target csvContent
        else st
      else save_to_local st target csvContent
    | none => save_to_local st target csvContent
  else st

/-- The shared tail of `get_prices` once raw CSV text is in hand:
parse, filter to the target date, apply the monotonic write-back policy
for today/tomorrow, store in the memory cache, return. -/
def gpAfterFetch (st : FetcherState) (clock : Clock) (provider tariff : String)
    (vat_rate : Int) (target : DateD) (csvContent : String) (cF hF : Nat) : GPResult :=
  { result := Except.ok (filterToDate (parse_csv csvContent provider tariff vat_rate) target)
    state := cachePutRaw (writeBackStore st clock provider tariff vat_rate target csvContent)
      clock.time (dateKeyStr target) (provider ++ "_" ++ tariff)
      (filterToDate (parse_csv csvContent provider tariff vat_rate) target)
    currentFetches := cF
    historicalFetches := hF }

/-- The `fetch_current_csv` call site of `get_prices` (today, tomorrow
and every other non-past date). -/
def gpFetchLive (st : FetcherState) (clock : Clock) (env : FetchEnv)
    (provider tariff : String) (vat_rate : Int) (target : DateD) : GPResult :=
  match env.current with
  | Except.error e => { result := Except.error e, state := st,
                        currentFetches := 1, historicalFetches := 0 }
  | Except.ok c => gpAfterFetch st clock provider tariff vat_rate target c 1 0

/-- `get_prices` after the memory-cache lookup missed. -/
def gpBody (st : FetcherState) (clock : Clock) (env : FetchEnv)
    (provider tariff : String) (vat_rate : Int) (target : DateD) (bypass : Bool) : GPResult :=
  if dateLt target clock.today then
    match (if ¬bypass then load_from_local st target else none) with
    | some c => gpAfterFetch st clock provider tariff vat_rate target c 0 0
    | none =>
      match env.historical with
      | Except.error e => { result := Except.error e, state := st,
                            currentFetches := 0, historicalFetches := 1 }
      | Except.ok c =>
        gpAfterFetch (save_to_local st target c) clock provider tariff vat_rate target c 0 1
  else
    if target = clock.today ∧ ¬bypass then
      match load_from_local st target with
      | some c =>
        if c ≠ "" then
          if (filterToDate (parse_csv c provider tariff vat_rate) target).length ≥ 96 then
            { result := Except.ok (filterToDate (parse_csv c provider tariff vat_rate) target)
              state := cachePutRaw st clock.time (dateKeyStr target)
                (provider ++ "_" ++ tariff)
                (filterToDate (parse_csv c provider tariff vat_rate) target)
              currentFetches := 0
              historicalFetches := 0 }
          else gpFetchLive st clock env provider tariff vat_rate target
        else gpFetchLive st clock env provider tariff vat_rate target
      | none => gpFetchLive st clock env provider tariff vat_rate target
    else gpFetchLive st clock env provider tariff vat_rate target

/-- `get_prices(provider, tariff, vat_rate, target_date, bypass_cache)`
of the portuguese_energy_price_tracker variant. -/
def get_prices (st : FetcherState) (clock : Clock) (env : FetchEnv)
    (provider tariff : String) (vat_rate : Int) (target_date : Option DateD)
    (bypass_cache : Bool) : GPResult :=
  let target := target_date.getD clock.today
  let dateKey := dateKeyStr target
  match cacheGet st clock.time dateKey bypass_cache with
  | (some inner, st1) =>
    if inner ≠ [] then
      match alookup (provider ++ "_" ++ tariff) inner with
      | some prices => { result := Except.ok prices, state := st1,
                         currentFetches := 0, historicalFetches := 0 }
      | none => gpBody st1 clock env provider tariff vat_rate target bypass_cache
    else gpBody st1 clock env provider tariff vat_rate target bypass_cache
  | (none, st1) => gpBody st1 clock env provider tariff vat_rate target bypass_cache

example :
    (get_prices ⟨[], [], []⟩ ⟨⟨2025, 11, 18⟩, 0⟩ ⟨Except.ok "h", Except.ok "g"⟩
      "P" "X" 23 (some ⟨2025, 11, 18⟩) false).currentFetches = 1 := rfl
example :
    (get_prices ⟨[], [], []⟩ ⟨⟨2025, 11, 18⟩, 0⟩ ⟨Except.ok "h", Except.ok "g"⟩
      "P" "X" 23 (some ⟨2025, 11, 17⟩) false).historicalFetches = 1 := rfl
example :
    (get_prices ⟨[], [], []⟩ ⟨⟨2025, 11, 18⟩, 0⟩ ⟨Except.ok "h", Except.ok "g"⟩
      "P" "X" 23 (some ⟨2025, 11, 20⟩) false).currentFetches = 1 := rfl

/-! ### Small structural lemmas -/

theorem alookup_ainsert {α β : Type} [DecidableEq α] (k : α) (v : β) (l : List (α × β)) :
    alookup k (ainsert k v l) = some v := by
  induction l with
  | nil => simp [ainsert, alookup]
  | cons hd rest ih =>
    obtain ⟨k', v'⟩ := hd
    by_cases hk : k' = k
    · subst hk
      simp [ainsert, alookup]
    · simp [ainsert, alookup, hk, ih]

theorem dateLt_irrefl (d : DateD) : dateLt d d = false := by
  simp [dateLt]

theorem nextDay_ne (d : DateD) : nextDay d ≠ d := by
  obtain ⟨y, m, dd⟩ := d
  unfold nextDay
  split_ifs <;> simp_all [DateD.mk.injEq]

theorem dateLt_nextDay (d : DateD) : dateLt (nextDay d) d = false := by
  obtain ⟨y, m, dd⟩ := d
  unfold nextDay
  split_ifs <;> simp [dateLt]

/-- Any iteration of the retry loop that still has an attempt left
performs at least one further request. -/
theorem fetchCurrentAux_count (r : Nat → Attempt) :
    ∀ (fuel a : Nat), 1 ≤ fuel → a + 1 ≤ (fetchCurrentAux r a fuel).2 := by
  intro fuel
  induction fuel with
  | zero => intro a h; omega
  | succ n ih =>
    intro a _
    unfold fetchCurrentAux
    rcases hra : r a with _ | ⟨s, b⟩
    · by_cases hn : n = 0
      · simp [hn]
      · simp only [if_neg hn]
        exact Nat.le_trans (by omega) (ih (a + 1) (by omega))
    · by_cases h4 : s = 404
      · simp only [if_pos h4]
        by_cases hn : n = 0
        · simp [hn]
        · simp only [if_neg hn]
          exact Nat.le_trans (by omega) (ih (a + 1) (by omega))
      · simp only [if_neg h4]
        by_cases h2 : s ≠ 200
        · simp only [if_pos h2]
          by_cases hn : n = 0
          · simp [hn]
          · simp only [if_neg hn]
            exact Nat.le_trans (by omega) (ih (a + 1) (by omega))
        · simp [h2]

/-- A 404 on a non-final attempt falls through to the next attempt. -/
theorem fetchCurrentAux_step404 (r : Nat → Attempt) (a n : Nat) (b : String)
    (h : r a = Attempt.resp 404 b) (hn : n ≠ 0) :
    fetchCurrentAux r a (n + 1) = fetchCurrentAux r (a + 1) n := by
  conv_lhs => unfold fetchCurrentAux; rw [h]
  simp [hn]

/-- A 404 on the final attempt surfaces the wrapped retry error. -/
theorem fetchCurrentAux_last404 (r : Nat → Attempt) (a : Nat) (b : String)
    (h : r a = Attempt.resp 404 b) :
    fetchCurrentAux r a 1 =
      (Except.error "Error fetching CSV after all retries: CSV file not found (HTTP 404)",
        a + 1) := by
  conv_lhs => unfold fetchCurrentAux; rw [h]
  simp

/-! ### Claim C1 -/

/-- Claim C1 counterexample: when every attempt answers HTTP 404, the
first attempt sees the 404 yet `fetch_current_csv` performs 3 requests,
not 1, and the surfaced error is the generic retry wrapper around the
404 message. -/
theorem claim1_cex :
    fetch_current_csv (fun _ => Attempt.resp 404 "") =
      (Except.error "Error fetching CSV after all retries: CSV file not found (HTTP 404)", 3) ∧
    (fetch_current_csv (fun _ => Attempt.resp 404 "")).2 ≠ 1 := by
  exact ⟨rfl, by decide⟩

/-- Claim C1 (amended): the 404 branch of `fetch_current_csv` raises
inside the retried `try` block, so the generic handler catches it and
retries with backoff like any other failure: a first-attempt 404 always
leads to at least a second request (the attempt counter does not stay
at 1), and three consecutive 404 responses surface
`Error fetching CSV after all retries: CSV file not found (HTTP 404)`
after exactly 3 attempts; the not-found text survives only inside that
wrapped message. -/
theorem claim1_404_retried (responses : Nat → Attempt) (b0 b1 b2 : String)
    (h0 : responses 0 = Attempt.resp 404 b0) :
    2 ≤ (fetch_current_csv responses).2 ∧
    (responses 1 = Attempt.resp 404 b1 → responses 2 = Attempt.resp 404 b2 →
      fetch_current_csv responses =
        (Except.error "Error fetching CSV after all retries: CSV file not found (HTTP 404)",
          3)) := by
  have s1 : fetchCurrentAux responses 0 (2 + 1) = fetchCurrentAux responses 1 2 :=
    fetchCurrentAux_step404 responses 0 2 b0 h0 (by omega)
  constructor
  · show 2 ≤ (fetchCurrentAux responses 0 3).2
    have : fetchCurrentAux responses 0 3 = fetchCurrentAux responses 1 2 := s1
    rw [this]
    exact fetchCurrentAux_count responses 2 1 (by omega)
  · intro h1 h2
    show fetchCurrentAux responses 0 3 = _
    have s2 : fetchCurrentAux responses 1 (1 + 1) = fetchCurrentAux responses 2 1 :=
      fetchCurrentAux_step404 responses 1 1 b1 h1 (by omega)
    have s3 := fetchCurrentAux_last404 responses 2 b2 h2
    rw [show fetchCurrentAux responses 0 3 = fetchCurrentAux responses 1 2 from s1,
      show fetchCurrentAux responses 1 2 = fetchCurrentAux responses 2 1 from s2, s3]

/-- Claim C1 witness: the amended theorem applied to a concrete
all-404 response stream. -/
theorem claim1_witness :
    2 ≤ (fetch_current_csv (fun _ => Attempt.resp 404 "x")).2 ∧
    ((fun _ : Nat => Attempt.resp 404 "x") 1 = Attempt.resp 404 "x" →
      (fun _ : Nat => Attempt.resp 404 "x") 2 = Attempt.resp 404 "x" →
      fetch_current_csv (fun _ => Attempt.resp 404 "x") =
        (Except.error "Error fetching CSV after all retries: CSV file not found (HTTP 404)",
          3)) :=
  claim1_404_retried (fun _ => Attempt.resp 404 "x") "x" "x" "x" rfl

/-! ### Claim C3 -/

/-- Claim C3 counterexample: with today = 2025-11-18, a request for
2025-11-20 (two days ahead) performs the live `fetch_current_csv`
(one current fetch) and never touches `fetch_historical_csv`, so it is
not routed to the Past path. -/
theorem claim3_cex :
    (get_prices ⟨[], [], []⟩ ⟨⟨2025, 11, 18⟩, 0⟩ ⟨Except.ok "h", Except.ok "g"⟩
      "P" "X" 23 (some ⟨2025, 11, 20⟩) false).currentFetches = 1 ∧
    (get_prices ⟨[], [], []⟩ ⟨⟨2025, 11, 18⟩, 0⟩ ⟨Except.ok "h", Except.ok "g"⟩
      "P" "X" 23 (some ⟨2025, 11, 20⟩) false).historicalFetches = 0 ∧
    (get_prices ⟨[], [], []⟩ ⟨⟨2025, 11, 18⟩, 0⟩ ⟨Except.ok "h", Except.ok "g"⟩
      "P" "X" 23 (some ⟨2025, 11, 20⟩) false).state.localStore = [] := by
  exact ⟨rfl, rfl, rfl⟩

/-- Claim C3 (amended): only dates strictly before today are classified
Past and routed to Local-Store-then-`fetch_historical_csv`; any other
date — today, tomorrow, or two and more days in the future — goes to
the live `fetch_current_csv` path, and a date that is neither today nor
tomorrow additionally skips the local-store preload and the disk
write-back. -/
theorem claim3_far_future_uses_live (st : FetcherState) (clock : Clock) (env : FetchEnv)
    (p t : String) (v : Int) (target : DateD) (c : String)
    (hc : st.cache = [])
    (h1 : dateLt target clock.today = false)
    (h2 : target ≠ clock.today)
    (h3 : target ≠ nextDay clock.today)
    (he : env.current = Except.ok c) :
    get_prices st clock env p t v (some target) false =
      { result := Except.ok (filterToDate (parse_csv c p t v) target)
        state := cachePutRaw st clock.time (dateKeyStr target) (p ++ "_" ++ t)
          (filterToDate (parse_csv c p t v) target)
        currentFetches := 1
        historicalFetches := 0 } := by
  unfold get_prices
  simp only [Option.getD_some]
  rw [show cacheGet st clock.time (dateKeyStr target) false = (none, st) from by
    unfold cacheGet
    rw [hc]
    simp [alookup]]
  unfold gpBody
  rw [h1]
  simp only [Bool.false_eq_true, if_false]
  rw [if_neg (by simp [h2])]
  unfold gpFetchLive
  rw [he]
  show gpAfterFetch st clock p t v target c 1 0 = _
  unfold gpAfterFetch writeBackStore
  rw [h1]
  simp only [Bool.false_eq_true, if_false]
  rw [if_neg (by simp [h2, h3])]

/-- Claim C3 witness: the amended theorem at a concrete state, with
today = 2025-11-18 and a target 13 days in the future. -/
theorem claim3_witness :
    get_prices ⟨[], [], []⟩ ⟨⟨2025, 11, 18⟩, 7⟩ ⟨Except.ok "h", Except.ok "g"⟩
      "P" "X" 23 (some ⟨2025, 12, 1⟩) false =
      { result := Except.ok (filterToDate (parse_csv "h" "P" "X" 23) ⟨2025, 12, 1⟩)
        state := cachePutRaw ⟨[], [], []⟩ 7 (dateKeyStr ⟨2025, 12, 1⟩) ("P" ++ "_" ++ "X")
          (filterToDate (parse_csv "h" "P" "X" 23) ⟨2025, 12, 1⟩)
        currentFetches := 1
        historicalFetches := 0 } :=
  claim3_far_future_uses_live ⟨[], [], []⟩ ⟨⟨2025, 11, 18⟩, 7⟩ ⟨Except.ok "h", Except.ok "g"⟩
    "P" "X" 23 ⟨2025, 12, 1⟩ "h" rfl (by decide) (by decide) (by decide) rfl

/-! ### Claim C7 -/

/-- Claim C7 (code bug): for the four canonical quarter-hour labels of
one hour, `aggregate_to_hourly` emits the interval label
`[00:00-01:00[[` — `strip("] ")` removes only `]` and spaces, so the
trailing `[` of the last member label survives and the synthesized
string carries a doubled closing bracket, contradicting the code's own
documented label format `[00:00-00:15[` and the claimed
`[00:00-01:00[`. -/
theorem claim7_label_double_bracket :
    (aggregate_to_hourly
      [⟨⟨⟨2025, 11, 18⟩, 0, 0⟩, "[00:00-00:15[", mkRat 1 10, mkRat 1 10, 0, 0⟩,
       ⟨⟨⟨2025, 11, 18⟩, 0, 15⟩, "[00:15-00:30[", mkRat 1 10, mkRat 1 10, 0, 0⟩,
       ⟨⟨⟨2025, 11, 18⟩, 0, 30⟩, "[00:30-00:45[", mkRat 1 10, mkRat 1 10, 0, 0⟩,
       ⟨⟨⟨2025, 11, 18⟩, 0, 45⟩, "[00:45-01:00[", mkRat 1 10, mkRat 1 10, 0, 0⟩]).map
        (fun h => h.interval) = ["[00:00-01:00[["] ∧
    ("[00:00-01:00[[" : String) ≠ "[00:00-01:00[" := by
  exact ⟨by decide, by decide⟩

/-! ### Claim C2 -/

/-- The condition under which the Today/Tomorrow write-back stores the
fresh content: no existing file, an existing file whose (BOM-stripped)
content is the empty string — Python truthiness treats it like a
missing file — or a strictly larger filtered count. -/
def overwriteCond (st : FetcherState) (p t : String) (v : Int) (target : DateD)
    (newCount : Nat) : Prop :=
  match load_from_local st target with
  | none => True
  | some ex => ex = "" ∨ newCount > (filterToDate (parse_csv ex p t v) target).length

/-- Claim C2 counterexample: tomorrow-resolution with an existing but
empty local file.  Both the new fetch and the existing file parse to 0
entries for the date — the new count does not strictly exceed the
existing count — yet the file is overwritten ("" is falsy, so the code
takes the no-existing-file branch). -/
theorem claim2_cex :
    (get_prices ⟨[], [], [("prices_2025-11-19.csv", "")]⟩ ⟨⟨2025, 11, 18⟩, 0⟩
        ⟨Except.ok "h", Except.ok "g"⟩ "P" "X" 23 (some ⟨2025, 11, 19⟩) false).state.localStore =
      [("prices_2025-11-19.csv", "h")] ∧
    (filterToDate (parse_csv "h" "P" "X" 23) ⟨2025, 11, 19⟩).length =
      (filterToDate (parse_csv "" "P" "X" 23) ⟨2025, 11, 19⟩).length := by
  exact ⟨rfl, rfl⟩

/-- Write-back behaviour of the shared tail of `get_prices` for a
today/tomorrow target. -/
theorem gpAfterFetch_writeback (st : FetcherState) (clock : Clock) (p t : String)
    (v : Int) (target : DateD) (c : String) (cF hF : Nat)
    (hNP : dateLt target clock.today = false)
    (hTT : target = clock.today ∨ target = nextDay clock.today) :
    (gpAfterFetch st clock p t v target c cF hF).result =
      Except.ok (filterToDate (parse_csv c p t v) target) ∧
    (gpAfterFetch st clock p t v target c cF hF).currentFetches = cF ∧
    (gpAfterFetch st clock p t v target c cF hF).historicalFetches = hF ∧
    (overwriteCond st p t v target (filterToDate (parse_csv c p t v) target).length →
      alookup (localFileName target) (gpAfterFetch st clock p t v target c cF hF).state.localStore =
        some c) ∧
    (¬ overwriteCond st p t v target (filterToDate (parse_csv c p t v) target).length →
      (gpAfterFetch st clock p t v target c cF hF).state.localStore = st.localStore) := by
  have hwb : (overwriteCond st p t v target
      (filterToDate (parse_csv c p t v) target).length →
      (writeBackStore st clock p t v target c).localStore =
        ainsert (localFileName target) c st.localStore) ∧
      (¬ overwriteCond st p t v target
        (filterToDate (parse_csv c p t v) target).length →
        (writeBackStore st clock p t v target c).localStore = st.localStore) := by
    unfold writeBackStore
    rw [hNP]
    simp only [Bool.false_eq_true, if_false]
    rw [if_pos hTT]
    rcases hl : load_from_local st target with _ | ex
    · exact ⟨fun _ => rfl, fun hOC => absurd (by rw [overwriteCond, hl]; trivial) hOC⟩
    · by_cases hex : ex = ""
      · subst hex
        dsimp only
        rw [if_neg (by simp)]
        exact ⟨fun _ => rfl,
          fun hOC => absurd (by rw [overwriteCond, hl]; exact Or.inl rfl) hOC⟩
      · dsimp only
        rw [if_pos hex]
        by_cases hgt : (filterToDate (parse_csv c p t v) target).length >
            (filterToDate (parse_csv ex p t v) target).length
        · rw [if_pos hgt]
          exact ⟨fun _ => rfl,
            fun hOC => absurd (by rw [overwriteCond, hl]; exact Or.inr hgt) hOC⟩
        · rw [if_neg hgt]
          refine ⟨fun hOC => ?_, fun _ => rfl⟩
          rw [overwriteCond, hl] at hOC
          rcases hOC with h | h
          · exact absurd h hex
          · exact absurd h hgt
  refine ⟨rfl, rfl, rfl, fun hOC => ?_, fun hOC => ?_⟩
  · show alookup (localFileName target)
      (cachePutRaw (writeBackStore st clock p t v target c) clock.time (dateKeyStr target)
        (p ++ "_" ++ t) (filterToDate (parse_csv c p t v) target)).localStore = some c
    rw [show (cachePutRaw (writeBackStore st clock p t v target c) clock.time
        (dateKeyStr target) (p ++ "_" ++ t)
        (filterToDate (parse_csv c p t v) target)).localStore =
        (writeBackStore st clock p t v target c).localStore from rfl]
    rw [hwb.1 hOC]
    exact alookup_ainsert _ _ _
  · show (cachePutRaw (writeBackStore st clock p t v target c) clock.time (dateKeyStr target)
      (p ++ "_" ++ t) (filterToDate (parse_csv c p t v) target)).localStore = st.localStore
    rw [show (cachePutRaw (writeBackStore st clock p t v target c) clock.time
        (dateKeyStr target) (p ++ "_" ++ t)
        (filterToDate (parse_csv c p t v) target)).localStore =
        (writeBackStore st clock p t v target c).localStore from rfl]
    exact hwb.2 hOC

/-- Claim C2 (amended): on a Today/Tomorrow resolution that reaches the
live fetch (memory-cache miss; for Today additionally no complete local
file), the local file is overwritten with the fresh raw content iff the
file is absent, its content is the empty string (Python truthiness
treats an empty file as missing, so it is always overwritten), or the
newly parsed count filtered to the target date strictly exceeds the
existing filtered count; in particular 30 new vs 50 existing leaves a
nonempty file unchanged, and 97 new vs 50 existing overwrites it. -/
theorem claim2_monotonic_writeback (st : FetcherState) (clock : Clock) (env : FetchEnv)
    (p t : String) (v : Int) (target : DateD) (newC : String)
    (hc : st.cache = [])
    (hTT : target = clock.today ∨ target = nextDay clock.today)
    (hToday : ∀ c, target = clock.today → load_from_local st target = some c → c ≠ "" →
      (filterToDate (parse_csv c p t v) target).length < 96)
    (he : env.current = Except.ok newC) :
    (get_prices st clock env p t v (some target) false).result =
      Except.ok (filterToDate (parse_csv newC p t v) target) ∧
    (get_prices st clock env p t v (some target) false).currentFetches = 1 ∧
    (get_prices st clock env p t v (some target) false).historicalFetches = 0 ∧
    (overwriteCond st p t v target (filterToDate (parse_csv newC p t v) target).length →
      alookup (localFileName target)
        (get_prices st clock env p t v (some target) false).state.localStore = some newC) ∧
    (¬ overwriteCond st p t v target (filterToDate (parse_csv newC p t v) target).length →
      (get_prices st clock env p t v (some target) false).state.localStore =
        st.localStore) := by
  have hNP : dateLt target clock.today = false := by
    rcases hTT with h | h
    · rw [h]
      exact dateLt_irrefl _
    · rw [h]
      exact dateLt_nextDay _
  have route : get_prices st clock env p t v (some target) false =
      gpAfterFetch st clock p t v target newC 1 0 := by
    unfold get_prices
    simp only [Option.getD_some]
    rw [show cacheGet st clock.time (dateKeyStr target) false = (none, st) from by
      unfold cacheGet
      rw [hc]
      simp [alookup]]
    unfold gpBody
    rw [hNP]
    simp only [Bool.false_eq_true, if_false]
    by_cases hT : target = clock.today
    · rw [if_pos (by simp [hT])]
      rcases hload : load_from_local st target with _ | c
      · unfold gpFetchLive
        rw [he]
      · by_cases hce : c = ""
        · subst hce
          simp only [ne_eq, not_true_eq_false, if_false]
          unfold gpFetchLive
          rw [he]
        · simp only [ne_eq, hce, not_false_eq_true, if_true]
          rw [if_neg (by simpa using Nat.not_le.mpr (hToday c hT hload hce))]
          unfold gpFetchLive
          rw [he]
    · rw [if_neg (by simp [hT])]
      unfold gpFetchLive
      rw [he]
  rw [route]
  exact gpAfterFetch_writeback st clock p t v target newC 1 0 hNP hTT

/-- Claim C2 witness: tomorrow-resolution where the existing file holds
one matching row for the date and the fresh content holds two, so the
strict-excess branch overwrites. -/
theorem claim2_witness :
    (get_prices ⟨[], [],
        [("prices_2025-11-19.csv",
          "tarifario,opcao,dia,intervalo,col,omie,tar\nP,X,19/11/2025,[00:00-00:15[,1,1,1\n")]⟩
      ⟨⟨2025, 11, 18⟩, 0⟩
      ⟨Except.ok "tarifario,opcao,dia,intervalo,col,omie,tar\nP,X,19/11/2025,[00:00-00:15[,1,1,1\nP,X,19/11/2025,[00:15-00:30[,1,1,1\n", Except.ok "g"⟩
      "P" "X" 23 (some ⟨2025, 11, 19⟩) false).result =
      Except.ok (filterToDate (parse_csv
        "tarifario,opcao,dia,intervalo,col,omie,tar\nP,X,19/11/2025,[00:00-00:15[,1,1,1\nP,X,19/11/2025,[00:15-00:30[,1,1,1\n"
        "P" "X" 23) ⟨2025, 11, 19⟩) ∧
    (overwriteCond ⟨[], [],
        [("prices_2025-11-19.csv",
          "tarifario,opcao,dia,intervalo,col,omie,tar\nP,X,19/11/2025,[00:00-00:15[,1,1,1\n")]⟩
        "P" "X" 23 ⟨2025, 11, 19⟩
        (filterToDate (parse_csv
          "tarifario,opcao,dia,intervalo,col,omie,tar\nP,X,19/11/2025,[00:00-00:15[,1,1,1\nP,X,19/11/2025,[00:15-00:30[,1,1,1\n"
          "P" "X" 23) ⟨2025, 11, 19⟩).length →
      alookup (localFileName ⟨2025, 11, 19⟩)
        (get_prices ⟨[], [],
          [("prices_2025-11-19.csv",
            "tarifario,opcao,dia,intervalo,col,omie,tar\nP,X,19/11/2025,[00:00-00:15[,1,1,1\n")]⟩
        ⟨⟨2025, 11, 18⟩, 0⟩
        ⟨Except.ok "tarifario,opcao,dia,intervalo,col,omie,tar\nP,X,19/11/2025,[00:00-00:15[,1,1,1\nP,X,19/11/2025,[00:15-00:30[,1,1,1\n", Except.ok "g"⟩
        "P" "X" 23 (some ⟨2025, 11, 19⟩) false).state.localStore =
        some "tarifario,opcao,dia,intervalo,col,omie,tar\nP,X,19/11/2025,[00:00-00:15[,1,1,1\nP,X,19/11/2025,[00:15-00:30[,1,1,1\n") := by
  refine ⟨?_, ?_⟩
  · exact (claim2_monotonic_writeback _ _ _ "P" "X" 23 ⟨2025, 11, 19⟩ _
      rfl (Or.inr (by decide)) (fun c h => absurd h (by decide)) rfl).1
  · exact (claim2_monotonic_writeback _ _ _ "P" "X" 23 ⟨2025, 11, 19⟩ _
      rfl (Or.inr (by decide)) (fun c h => absurd h (by decide)) rfl).2.2.2.1

/-! ### Claim C4 -/

/-- Claim C4 counterexample: a matching row with `col = 0.123456` and
`vat_rate = 23` is emitted with `price = 0.12346` and
`price_w_vat = 0.15185` (rounded from the unrounded product
`0.15185088`), but `round(0.12346 * 1.23, 5) = 0.15186`, so the emitted
pair violates the claimed invariant against the rounded
VAT-exclusive price. -/
theorem claim4_cex :
    parse_csv
      "tarifario,opcao,dia,intervalo,col,omie,tar\nP,X,18/11/2025,[00:00-00:15[,0.123456,0.1,0.05\n"
      "P" "X" 23 =
      [{ dt := ⟨⟨2025, 11, 18⟩, 0, 0⟩
         interval := "[00:00-00:15["
         price := mkRat 12346 100000
         price_w_vat := mkRat 15185 100000
         market_price := mkRat 1 10
         tar_cost := mkRat 5 100 }] ∧
    round5 (qMul (mkRat 12346 100000) (qAdd (intQ 1) (qDiv (intQ 23) (intQ 100)))) =
      mkRat 15186 100000 ∧
    (mkRat 15185 100000 : ℚ) ≠ mkRat 15186 100000 := by
  exact ⟨by decide, by decide, by decide⟩

/-- Claim C4 (amended): every row passing the provider/tariff filter
whose `dia`, `intervalo` fields are valid and whose `col`, `omie`,
`tar` fields are non-blank decimals is emitted by the row parser as
exactly one record, whose `price_w_vat` is `round5` of the unrounded
parsed `col` times `(1 + vat_rate/100)`; the claimed invariant against
the emitted 5-decimal-rounded `price` holds exactly in the case that
`col` is itself representable in 5 decimals (`round5 colQ = colQ`). -/
theorem claim4_row_vat (header fields : List (List Char)) (provider tariffCsv : List Char)
    (v : Int) (dia intervalo dS mS yS colS omieS tarS : List Char)
    (colQ omieQ tarQ : ℚ) (y m d : Int) (hm : Nat × Nat)
    (h1 : rowGet header fields "tarifario".toList = some provider)
    (h2 : rowGet header fields "opcao".toList = some tariffCsv)
    (h3 : rowGet header fields "dia".toList = some dia)
    (h4 : rowGet header fields "intervalo".toList = some intervalo)
    (h5 : splitOnChar '/' dia = [dS, mS, yS])
    (h6 : findIntervalStart intervalo = some hm)
    (h7 : parsePyInt yS = some y)
    (h8 : parsePyInt mS = some m)
    (h9 : parsePyInt dS = some d)
    (h10 : dtValid y m d hm.1 hm.2 = true)
    (h11 : stripPyWs ((rowGet header fields "col".toList).getD []) = colS)
    (h12 : stripPyWs ((rowGet header fields "omie".toList).getD []) = omieS)
    (h13 : stripPyWs ((rowGet header fields "tar".toList).getD []) = tarS)
    (hne : colS ≠ [] ∧ omieS ≠ [] ∧ tarS ≠ [])
    (h14 : parsePyFloat colS = some colQ)
    (h15 : parsePyFloat omieS = some omieQ)
    (h16 : parsePyFloat tarS = some tarQ) :
    parseRow header fields provider tariffCsv v =
      some { dt := ⟨⟨y.toNat, m.toNat, d.toNat⟩, hm.1, hm.2⟩
             interval := String.mk intervalo
             price := round5 colQ
             price_w_vat := round5 (qMul colQ (qAdd (intQ 1) (qDiv (intQ v) (intQ 100))))
             market_price := round5 omieQ
             tar_cost := round5 tarQ } ∧
    (round5 colQ = colQ →
      round5 (qMul colQ (qAdd (intQ 1) (qDiv (intQ v) (intQ 100)))) =
        round5 (qMul (round5 colQ) (qAdd (intQ 1) (qDiv (intQ v) (intQ 100))))) := by
  constructor
  · unfold parseRow
    have hfilter : ¬(rowGet header fields "tarifario".toList ≠ some provider ∨
        rowGet header fields "opcao".toList ≠ some tariffCsv) := by
      push_neg
      exact ⟨h1, h2⟩
    rw [if_neg hfilter, h3, h4]
    dsimp only
    rw [h5]
    dsimp only
    rw [h6]
    dsimp only
    rw [h7, h8, h9]
    dsimp only
    rw [if_pos h10]
    rw [h11, h12, h13]
    rw [if_neg (by simp [hne.1, hne.2.1, hne.2.2])]
    rw [h14, h15, h16]
  · intro hcol
    rw [hcol]

/-- Claim C4 witness: the amended theorem applied to the concrete
header and row of the counterexample content. -/
theorem claim4_witness :
    parseRow
      (splitOnChar ',' "tarifario,opcao,dia,intervalo,col,omie,tar".toList)
      (splitOnChar ',' "P,X,18/11/2025,[00:00-00:15[,0.123456,0.1,0.05".toList)
      "P".toList "X".toList 23 =
      some { dt := ⟨⟨2025, 11, 18⟩, 0, 0⟩
             interval := String.mk "[00:00-00:15[".toList
             price := round5 (mkRat 123456 1000000)
             price_w_vat := round5 (qMul (mkRat 123456 1000000)
               (qAdd (intQ 1) (qDiv (intQ 23) (intQ 100))))
             market_price := round5 (mkRat 1 10)
             tar_cost := round5 (mkRat 5 100) } ∧
    (round5 (mkRat 123456 1000000) = mkRat 123456 1000000 →
      round5 (qMul (mkRat 123456 1000000) (qAdd (intQ 1) (qDiv (intQ 23) (intQ 100)))) =
        round5 (qMul (round5 (mkRat 123456 1000000))
          (qAdd (intQ 1) (qDiv (intQ 23) (intQ 100))))) :=
  claim4_row_vat _ _ _ _ 23
    "18/11/2025".toList "[00:00-00:15[".toList
    "18".toList "11".toList "2025".toList
    "0.123456".toList "0.1".toList "0.05".toList
    (mkRat 123456 1000000) (mkRat 1 10) (mkRat 5 100)
    2025 11 18 (0, 0)
    (by decide) (by decide) (by decide) (by decide) (by decide) (by decide)
    (by decide) (by decide) (by decide) (by decide) (by decide) (by decide)
    (by decide) ⟨by decide, by decide, by decide⟩ (by decide) (by decide) (by decide)

/-! ### Claim C6 -/

theorem mem_dedupFirst {l : List Timestamp} {x : Timestamp} (h : x ∈ dedupFirst l) : x ∈ l := by
  induction l with
  | nil => simp [dedupFirst] at h
  | cons k ks ih =>
    rw [dedupFirst] at h
    rcases List.mem_cons.mp h with rfl | h
    · exact List.mem_cons_self _ _
    · exact List.mem_cons_of_mem _ (ih (List.mem_of_mem_filter h))

theorem dedupFirst_nodup : ∀ l : List Timestamp, (dedupFirst l).Nodup := by
  intro l
  induction l with
  | nil => simp [dedupFirst]
  | cons k ks ih =>
    rw [dedupFirst, List.nodup_cons]
    constructor
    · intro hmem
      have := List.of_mem_filter hmem
      simp at this
    · exact List.Nodup.filter _ ih

theorem dedupFirst_const : ∀ (l : List Timestamp) (k : Timestamp), l ≠ [] →
    (∀ x ∈ l, x = k) → dedupFirst l = [k] := by
  intro l
  induction l with
  | nil => intro k h; exact absurd rfl h
  | cons a as ih =>
    intro k _ hall
    have ha : a = k := hall a (List.mem_cons_self _ _)
    subst ha
    rw [dedupFirst]
    by_cases has : as = []
    · subst has
      simp [dedupFirst]
    · rw [ih a has (fun x hx => hall x (List.mem_cons_of_mem _ hx))]
      simp

/-- Every hourly record projects its key: `(hourRecord l k).dt = k`. -/
theorem map_dt_aggregate (l : List PriceEntry) :
    (aggregate_to_hourly l).map (fun h => h.dt) =
      List.insertionSort TsLe (dedupFirst (l.map (fun p => hourKey p.dt))) := by
  unfold aggregate_to_hourly
  generalize List.insertionSort TsLe (dedupFirst (l.map (fun p => hourKey p.dt))) = ks
  induction ks with
  | nil => rfl
  | cons a as ih =>
    simp only [List.map_cons]
    exact congrArg (List.cons a) ih

/-- Claim C6 counterexample: three quarter-hour records of one hour with
prices 0.1, 0.1 and 0.2.  The arithmetic mean is 2/15 = 0.1333…, which
is not representable in 5 decimals; the emitted hourly price is the
rounded 0.13333, which differs from the mean. -/
theorem claim6_cex :
    (aggregate_to_hourly
      [⟨⟨⟨2025, 11, 18⟩, 0, 0⟩, "[00:00-00:15[", mkRat 1 10, mkRat 1 10, 0, 0⟩,
       ⟨⟨⟨2025, 11, 18⟩, 0, 15⟩, "[00:15-00:30[", mkRat 1 10, mkRat 1 10, 0, 0⟩,
       ⟨⟨⟨2025, 11, 18⟩, 0, 30⟩, "[00:30-00:45[", mkRat 2 10, mkRat 2 10, 0, 0⟩]).map
      (fun h => h.price) = [mkRat 13333 100000] ∧
    (mkRat 13333 100000 : ℚ) ≠
      qDiv (qSum [mkRat 1 10, mkRat 1 10, mkRat 2 10]) (intQ 3) := by
  exact ⟨by decide, by decide⟩

/-- Claim C6 (amended): `aggregate_to_hourly` maps the empty sequence to
the empty sequence; N same-hour intervals produce exactly one hourly
record whose prices are the arithmetic means of the inputs rounded to 5
decimals (`round5`, the same rounding the parser applies — the exact
mean is emitted only when it is representable in 5 decimals); and for
every input the output is strictly ascending by hour-floored timestamp
regardless of input order. -/
theorem claim6_aggregate :
    aggregate_to_hourly [] = [] ∧
    (∀ (l : List PriceEntry) (k : Timestamp), l ≠ [] → (∀ e ∈ l, hourKey e.dt = k) →
      aggregate_to_hourly l =
        [{ dt := k
           interval := synthInterval (l.headD default).interval (l.getLastD default).interval
           price := round5 (qDiv (qSum (l.map (fun p => p.price))) (intQ (l.length : Int)))
           price_w_vat := round5 (qDiv (qSum (l.map (fun p => p.price_w_vat)))
             (intQ (l.length : Int))) }]) ∧
    (∀ l : List PriceEntry,
      List.Pairwise (fun a b => TsLe a b ∧ a ≠ b)
        ((aggregate_to_hourly l).map (fun h => h.dt))) := by
  refine ⟨rfl, ?_, ?_⟩
  · intro l k hne hall
    unfold aggregate_to_hourly
    have hd : dedupFirst (l.map (fun p => hourKey p.dt)) = [k] :=
      dedupFirst_const _ k (fun h => hne (by simpa using h))
        (fun x hx => by
          rcases List.mem_map.mp hx with ⟨p, hp, rfl⟩
          exact hall p hp)
    rw [hd]
    rw [show List.insertionSort TsLe [k] = [k] from rfl]
    rw [show List.map (hourRecord l) [k] = [hourRecord l k] from rfl]
    unfold hourRecord
    rw [show l.filter (fun p => decide (hourKey p.dt = k)) = l from
      List.filter_eq_self.mpr (fun a ha => by simp [hall a ha])]
  · intro l
    rw [map_dt_aggregate l]
    exact (List.sorted_insertionSort TsLe _).and
      (((List.perm_insertionSort TsLe _).nodup_iff).mpr (dedupFirst_nodup _))

/-- Claim C6 witness: the same-hour conjunct applied to two concrete
quarter-hour records, whose mean 0.2 / 0.3 is exact. -/
theorem claim6_witness :
    aggregate_to_hourly
      [⟨⟨⟨2025, 11, 18⟩, 0, 0⟩, "[00:00-00:15[", mkRat 1 10, mkRat 2 10, 0, 0⟩,
       ⟨⟨⟨2025, 11, 18⟩, 0, 15⟩, "[00:15-00:30[", mkRat 3 10, mkRat 4 10, 0, 0⟩] =
      [{ dt := ⟨⟨2025, 11, 18⟩, 0, 0⟩
         interval := "[00:00-00:30[["
         price := mkRat 2 10
         price_w_vat := mkRat 3 10 }] := by
  have h := claim6_aggregate.2.1
    [⟨⟨⟨2025, 11, 18⟩, 0, 0⟩, "[00:00-00:15[", mkRat 1 10, mkRat 2 10, 0, 0⟩,
     ⟨⟨⟨2025, 11, 18⟩, 0, 15⟩, "[00:15-00:30[", mkRat 3 10, mkRat 4 10, 0, 0⟩]
    ⟨⟨2025, 11, 18⟩, 0, 0⟩ (by decide) (by decide)
  rw [h]
  decide

/-! ### Claim C8 -/

theorem writeBackStore_cache (st : FetcherState) (clock : Clock) (p t : String) (v : Int)
    (target : DateD) (c : String) :
    (writeBackStore st clock p t v target c).cache = st.cache ∧
    (writeBackStore st clock p t v target c).cacheTimes = st.cacheTimes := by
  unfold writeBackStore
  repeat' split
  all_goals exact ⟨rfl, rfl⟩

/-- Whatever the write-back decides, `gpAfterFetch` returns the parsed
filtered entries and stores them in the memory cache under the date key
and the `provider_tariff` key, stamping the date's cache time. -/
theorem gpAfterFetch_cacheStore (st : FetcherState) (clock : Clock) (p t : String)
    (v : Int) (target : DateD) (c : String) (cF hF : Nat) :
    (gpAfterFetch st clock p t v target c cF hF).result =
      Except.ok (filterToDate (parse_csv c p t v) target) ∧
    (gpAfterFetch st clock p t v target c cF hF).currentFetches = cF ∧
    (gpAfterFetch st clock p t v target c cF hF).historicalFetches = hF ∧
    (gpAfterFetch st clock p t v target c cF hF).state.cache =
      ainsert (dateKeyStr target)
        (ainsert (p ++ "_" ++ t) (filterToDate (parse_csv c p t v) target)
          ((alookup (dateKeyStr target) st.cache).getD []))
        st.cache ∧
    (gpAfterFetch st clock p t v target c cF hF).state.cacheTimes =
      ainsert (dateKeyStr target) clock.time st.cacheTimes := by
  refine ⟨rfl, rfl, rfl, ?_, ?_⟩
  · show (cachePutRaw (writeBackStore st clock p t v target c) clock.time (dateKeyStr target)
      (p ++ "_" ++ t) (filterToDate (parse_csv c p t v) target)).cache = _
    unfold cachePutRaw
    rw [show ({ writeBackStore st clock p t v target c with
        cache := ainsert (dateKeyStr target)
          (ainsert (p ++ "_" ++ t) (filterToDate (parse_csv c p t v) target)
            ((alookup (dateKeyStr target) (writeBackStore st clock p t v target c).cache).getD []))
          (writeBackStore st clock p t v target c).cache
        cacheTimes := ainsert (dateKeyStr target) clock.time
          (writeBackStore st clock p t v target c).cacheTimes } : FetcherState).cache =
      ainsert (dateKeyStr target)
        (ainsert (p ++ "_" ++ t) (filterToDate (parse_csv c p t v) target)
          ((alookup (dateKeyStr target) (writeBackStore st clock p t v target c).cache).getD []))
        (writeBackStore st clock p t v target c).cache from rfl]
    rw [(writeBackStore_cache st clock p t v target c).1]
  · show (cachePutRaw (writeBackStore st clock p t v target c) clock.time (dateKeyStr target)
      (p ++ "_" ++ t) (filterToDate (parse_csv c p t v) target)).cacheTimes = _
    unfold cachePutRaw
    rw [show ({ writeBackStore st clock p t v target c with
        cache := ainsert (dateKeyStr target)
          (ainsert (p ++ "_" ++ t) (filterToDate (parse_csv c p t v) target)
            ((alookup (dateKeyStr target) (writeBackStore st clock p t v target c).cache).getD []))
          (writeBackStore st clock p t v target c).cache
        cacheTimes := ainsert (dateKeyStr target) clock.time
          (writeBackStore st clock p t v target c).cacheTimes } : FetcherState).cacheTimes =
      ainsert (dateKeyStr target) clock.time
        (writeBackStore st clock p t v target c).cacheTimes from rfl]
    rw [(writeBackStore_cache st clock p t v target c).2]

set_option maxRecDepth 400000

/-- 96 identical matching quarter-hour rows for 2025-11-18. -/
def demoRows : Nat → String
  | 0 => ""
  | n + 1 => "P,X,18/11/2025,[00:00-00:15[,1,1,1\n" ++ demoRows n

def demoContent (n : Nat) : String :=
  "tarifario,opcao,dia,intervalo,col,omie,tar\n" ++ demoRows n

theorem demoContent96_count :
    (filterToDate (parse_csv (demoContent 96) "P" "X" 23) ⟨2025, 11, 18⟩).length = 96 := by
  decide

/-- Claim C8 counterexample: today-classified call, bypass off, the
local file parses to 96 entries for the date — yet the call returns the
(different, stale) fresh memory-cache entry for (date, provider,
tariff), not the file's entries.  The no-remote-fetch part holds, the
returns-those-entries part does not. -/
theorem claim8_cex :
    96 ≤ (filterToDate (parse_csv (demoContent 96) "P" "X" 23) ⟨2025, 11, 18⟩).length ∧
    (get_prices ⟨[("2025-11-18", [("P_X", [])])], [("2025-11-18", 4000)],
        [("prices_2025-11-18.csv", demoContent 96)]⟩
      ⟨⟨2025, 11, 18⟩, 5000⟩ ⟨Except.ok "h", Except.ok "g"⟩ "P" "X" 23
      (some ⟨2025, 11, 18⟩) false).result = Except.ok [] ∧
    (get_prices ⟨[("2025-11-18", [("P_X", [])])], [("2025-11-18", 4000)],
        [("prices_2025-11-18.csv", demoContent 96)]⟩
      ⟨⟨2025, 11, 18⟩, 5000⟩ ⟨Except.ok "h", Except.ok "g"⟩ "P" "X" 23
      (some ⟨2025, 11, 18⟩) false).currentFetches = 0 ∧
    (get_prices ⟨[("2025-11-18", [("P_X", [])])], [("2025-11-18", 4000)],
        [("prices_2025-11-18.csv", demoContent 96)]⟩
      ⟨⟨2025, 11, 18⟩, 5000⟩ ⟨Except.ok "h", Except.ok "g"⟩ "P" "X" 23
      (some ⟨2025, 11, 18⟩) false).historicalFetches = 0 := by
  refine ⟨?_, rfl, rfl, rfl⟩
  rw [demoContent96_count]

/-- Claim C8 (amended): on a Today-classified call with
`bypass_cache = false`, when the memory cache holds no entry for the
date and the local file parses to at least 96 entries for the date, the
call returns exactly those entries, stores them in the memory cache,
and performs no remote fetch on either channel. -/
theorem claim8_local_complete (st : FetcherState) (clock : Clock) (env : FetchEnv)
    (p t : String) (v : Int) (c : String)
    (hcache : alookup (dateKeyStr clock.today) st.cache = none)
    (hload : load_from_local st clock.today = some c)
    (hne : c ≠ "")
    (hcount : (filterToDate (parse_csv c p t v) clock.today).length ≥ 96) :
    get_prices st clock env p t v (some clock.today) false =
      { result := Except.ok (filterToDate (parse_csv c p t v) clock.today)
        state := cachePutRaw st clock.time (dateKeyStr clock.today) (p ++ "_" ++ t)
          (filterToDate (parse_csv c p t v) clock.today)
        currentFetches := 0
        historicalFetches := 0 } := by
  unfold get_prices
  simp only [Option.getD_some]
  rw [show cacheGet st clock.time (dateKeyStr clock.today) false = (none, st) from by
    unfold cacheGet
    rw [hcache]
    rfl]
  unfold gpBody
  rw [dateLt_irrefl clock.today]
  simp only [Bool.false_eq_true, if_false]
  rw [if_pos (show True ∧ ¬False from ⟨trivial, by simp⟩)]
  rw [hload]
  dsimp only
  rw [if_pos hne, if_pos hcount]

/-- Claim C8 witness: the amended theorem at a concrete state whose
local file holds 96 matching rows for today. -/
theorem claim8_witness :
    get_prices ⟨[], [], [("prices_2025-11-18.csv", demoContent 96)]⟩ ⟨⟨2025, 11, 18⟩, 0⟩
      ⟨Except.ok "h", Except.ok "g"⟩ "P" "X" 23 (some ⟨2025, 11, 18⟩) false =
      { result := Except.ok (filterToDate (parse_csv (demoContent 96) "P" "X" 23)
          ⟨2025, 11, 18⟩)
        state := cachePutRaw ⟨[], [], [("prices_2025-11-18.csv", demoContent 96)]⟩ 0
          (dateKeyStr ⟨2025, 11, 18⟩) ("P" ++ "_" ++ "X")
          (filterToDate (parse_csv (demoContent 96) "P" "X" 23) ⟨2025, 11, 18⟩)
        currentFetches := 0
        historicalFetches := 0 } :=
  claim8_local_complete ⟨[], [], [("prices_2025-11-18.csv", demoContent 96)]⟩
    ⟨⟨2025, 11, 18⟩, 0⟩ ⟨Except.ok "h", Except.ok "g"⟩ "P" "X" 23 (demoContent 96)
    rfl rfl (by decide) (by rw [demoContent96_count])

/-! ### Cache-path lemmas shared by the idempotence claims -/

/-- A fresh memory-cache hit for both the date and the pair returns the
cached list unchanged with no fetch and no state change. -/
theorem gp_cache_hit (st : FetcherState) (clock : Clock) (env : FetchEnv)
    (p t : String) (v : Int) (target : DateD) (prices : List PriceEntry)
    (inner : List (String × List PriceEntry)) (t1 : Nat)
    (hcache : alookup (dateKeyStr target) st.cache = some inner)
    (hinner : inner ≠ [])
    (hpt : alookup (p ++ "_" ++ t) inner = some prices)
    (htime : alookup (dateKeyStr target) st.cacheTimes = some t1)
    (ht : clock.time - t1 < CACHE_DURATION) :
    get_prices st clock env p t v (some target) false =
      { result := Except.ok prices, state := st, currentFetches := 0,
        historicalFetches := 0 } := by
  unfold get_prices
  simp only [Option.getD_some]
  rw [show cacheGet st clock.time (dateKeyStr target) false = (some inner, st) from by
    unfold cacheGet
    rw [hcache, htime]
    dsimp only
    rw [if_pos ht]
    rfl]
  dsimp only
  rw [if_pos hinner, hpt]

/-- A fresh date-level hit whose inner dict lacks the requested pair
falls through to the fetch logic. -/
theorem gp_cache_hit_missing_pair (st : FetcherState) (clock : Clock) (env : FetchEnv)
    (p t : String) (v : Int) (target : DateD)
    (inner : List (String × List PriceEntry)) (t1 : Nat)
    (hcache : alookup (dateKeyStr target) st.cache = some inner)
    (hinner : inner ≠ [])
    (hpt : alookup (p ++ "_" ++ t) inner = none)
    (htime : alookup (dateKeyStr target) st.cacheTimes = some t1)
    (ht : clock.time - t1 < CACHE_DURATION) :
    get_prices st clock env p t v (some target) false =
      gpBody st clock env p t v target false := by
  unfold get_prices
  simp only [Option.getD_some]
  rw [show cacheGet st clock.time (dateKeyStr target) false = (some inner, st) from by
    unfold cacheGet
    rw [hcache, htime]
    dsimp only
    rw [if_pos ht]
    rfl]
  dsimp only
  rw [if_pos hinner, hpt]

/-- On an empty cache and empty local store, a non-past call routes to
the live fetch. -/
theorem gp_fresh_nonpast (st : FetcherState) (clock : Clock) (env : FetchEnv)
    (p t : String) (v : Int) (target : DateD) (cc : String)
    (h0 : st.cache = []) (h1 : st.localStore = [])
    (he : env.current = Except.ok cc)
    (hNP : dateLt target clock.today = false) :
    get_prices st clock env p t v (some target) false =
      gpAfterFetch st clock p t v target cc 1 0 := by
  unfold get_prices
  simp only [Option.getD_some]
  rw [show cacheGet st clock.time (dateKeyStr target) false = (none, st) from by
    unfold cacheGet
    rw [h0]
    rfl]
  unfold gpBody
  rw [hNP]
  simp only [Bool.false_eq_true, if_false]
  have hload : load_from_local st target = none := by
    unfold load_from_local
    rw [h1]
    rfl
  by_cases hT : target = clock.today
  · rw [if_pos (show target = clock.today ∧ ¬False from ⟨hT, by simp⟩)]
    rw [hload]
    unfold gpFetchLive
    rw [he]
  · rw [if_neg (by simp [hT])]
    unfold gpFetchLive
    rw [he]

/-- On an empty cache and empty local store, a past call fetches the
historical snapshot, saves it, and continues with it. -/
theorem gp_fresh_past (st : FetcherState) (clock : Clock) (env : FetchEnv)
    (p t : String) (v : Int) (target : DateD) (hc : String)
    (h0 : st.cache = []) (h1 : st.localStore = [])
    (he : env.historical = Except.ok hc)
    (hP : dateLt target clock.today = true) :
    get_prices st clock env p t v (some target) false =
      gpAfterFetch (save_to_local st target hc) clock p t v target hc 0 1 := by
  unfold get_prices
  simp only [Option.getD_some]
  rw [show cacheGet st clock.time (dateKeyStr target) false = (none, st) from by
    unfold cacheGet
    rw [h0]
    rfl]
  unfold gpBody
  rw [hP]
  simp only [if_true]
  have hload : load_from_local st target = none := by
    unfold load_from_local
    rw [h1]
    rfl
  rw [show (if ¬(false = true) then load_from_local st target else none) =
    load_from_local st target from by simp]
  rw [hload]
  dsimp only
  rw [he]

/-! ### Claim C5 -/

/-- Claim C5 (confirmed): starting from an empty memory cache and local
store, a first `get_prices` call performs exactly one fetch (historical
for a past target, live otherwise); a second call with the same
arguments, `bypass_cache = false` and less than the 1-hour TTL elapsed
returns the identical result from the memory cache, performs no fetch
on either channel, and leaves the state untouched. -/
theorem claim5_idempotent (st : FetcherState) (clock1 clock2 : Clock)
    (env1 env2 : FetchEnv) (p t : String) (v : Int) (target : DateD) (cc hc : String)
    (h0 : st.cache = []) (h1 : st.localStore = [])
    (he1 : env1.current = Except.ok cc) (he2 : env1.historical = Except.ok hc)
    (hT : clock2.time - clock1.time < CACHE_DURATION) :
    (get_prices st clock1 env1 p t v (some target) false).currentFetches +
      (get_prices st clock1 env1 p t v (some target) false).historicalFetches = 1 ∧
    (get_prices (get_prices st clock1 env1 p t v (some target) false).state clock2 env2
      p t v (some target) false).result =
      (get_prices st clock1 env1 p t v (some target) false).result ∧
    (get_prices (get_prices st clock1 env1 p t v (some target) false).state clock2 env2
      p t v (some target) false).currentFetches = 0 ∧
    (get_prices (get_prices st clock1 env1 p t v (some target) false).state clock2 env2
      p t v (some target) false).historicalFetches = 0 ∧
    (get_prices (get_prices st clock1 env1 p t v (some target) false).state clock2 env2
      p t v (some target) false).state =
      (get_prices st clock1 env1 p t v (some target) false).state := by
  by_cases hP : dateLt target clock1.today = true
  · have hr1 := gp_fresh_past st clock1 env1 p t v target hc h0 h1 he2 hP
    have hfacts := gpAfterFetch_cacheStore (save_to_local st target hc) clock1 p t v target hc 0 1
    have hc1 : (get_prices st clock1 env1 p t v (some target) false).state.cache =
        [(dateKeyStr target, [(p ++ "_" ++ t, filterToDate (parse_csv hc p t v) target)])] := by
      rw [hr1, hfacts.2.2.2.1, show (save_to_local st target hc).cache = st.cache from rfl, h0]
      rfl
    have ht1 : alookup (dateKeyStr target)
        (get_prices st clock1 env1 p t v (some target) false).state.cacheTimes =
        some clock1.time := by
      rw [hr1, hfacts.2.2.2.2]
      exact alookup_ainsert _ _ _
    have hres1 : (get_prices st clock1 env1 p t v (some target) false).result =
        Except.ok (filterToDate (parse_csv hc p t v) target) := by
      rw [hr1]
      exact hfacts.1
    have hr2 := gp_cache_hit (get_prices st clock1 env1 p t v (some target) false).state
      clock2 env2 p t v target (filterToDate (parse_csv hc p t v) target)
      [(p ++ "_" ++ t, filterToDate (parse_csv hc p t v) target)] clock1.time
      (by rw [hc1]; simp [alookup]) (by simp) (by simp [alookup]) ht1 hT
    refine ⟨?_, ?_, ?_, ?_, ?_⟩
    · rw [hr1, hfacts.2.1, hfacts.2.2.1]
    · rw [hr2, hres1]
    · rw [hr2]
    · rw [hr2]
    · rw [hr2]
  · have hNP : dateLt target clock1.today = false := by
      simpa using hP
    have hr1 := gp_fresh_nonpast st clock1 env1 p t v target cc h0 h1 he1 hNP
    have hfacts := gpAfterFetch_cacheStore st clock1 p t v target cc 1 0
    have hc1 : (get_prices st clock1 env1 p t v (some target) false).state.cache =
        [(dateKeyStr target, [(p ++ "_" ++ t, filterToDate (parse_csv cc p t v) target)])] := by
      rw [hr1, hfacts.2.2.2.1, h0]
      rfl
    have ht1 : alookup (dateKeyStr target)
        (get_prices st clock1 env1 p t v (some target) false).state.cacheTimes =
        some clock1.time := by
      rw [hr1, hfacts.2.2.2.2]
      exact alookup_ainsert _ _ _
    have hres1 : (get_prices st clock1 env1 p t v (some target) false).result =
        Except.ok (filterToDate (parse_csv cc p t v) target) := by
      rw [hr1]
      exact hfacts.1
    have hr2 := gp_cache_hit (get_prices st clock1 env1 p t v (some target) false).state
      clock2 env2 p t v target (filterToDate (parse_csv cc p t v) target)
      [(p ++ "_" ++ t, filterToDate (parse_csv cc p t v) target)] clock1.time
      (by rw [hc1]; simp [alookup]) (by simp) (by simp [alookup]) ht1 hT
    refine ⟨?_, ?_, ?_, ?_, ?_⟩
    · rw [hr1, hfacts.2.1, hfacts.2.2.1]
    · rw [hr2, hres1]
    · rw [hr2]
    · rw [hr2]
    · rw [hr2]

/-- Claim C5 witness: the idempotence theorem at a concrete today-dated
call, 100 seconds between the calls. -/
theorem claim5_witness :
    (get_prices ⟨[], [], []⟩ ⟨⟨2025, 11, 18⟩, 100⟩ ⟨Except.ok "h", Except.ok "g"⟩
      "P" "X" 23 (some ⟨2025, 11, 18⟩) false).currentFetches +
      (get_prices ⟨[], [], []⟩ ⟨⟨2025, 11, 18⟩, 100⟩ ⟨Except.ok "h", Except.ok "g"⟩
      "P" "X" 23 (some ⟨2025, 11, 18⟩) false).historicalFetches = 1 ∧
    (get_prices (get_prices ⟨[], [], []⟩ ⟨⟨2025, 11, 18⟩, 100⟩ ⟨Except.ok "h", Except.ok "g"⟩
      "P" "X" 23 (some ⟨2025, 11, 18⟩) false).state ⟨⟨2025, 11, 18⟩, 200⟩
      ⟨Except.ok "x", Except.ok "y"⟩ "P" "X" 23 (some ⟨2025, 11, 18⟩) false).result =
      (get_prices ⟨[], [], []⟩ ⟨⟨2025, 11, 18⟩, 100⟩ ⟨Except.ok "h", Except.ok "g"⟩
      "P" "X" 23 (some ⟨2025, 11, 18⟩) false).result ∧
    (get_prices (get_prices ⟨[], [], []⟩ ⟨⟨2025, 11, 18⟩, 100⟩ ⟨Except.ok "h", Except.ok "g"⟩
      "P" "X" 23 (some ⟨2025, 11, 18⟩) false).state ⟨⟨2025, 11, 18⟩, 200⟩
      ⟨Except.ok "x", Except.ok "y"⟩ "P" "X" 23 (some ⟨2025, 11, 18⟩) false).currentFetches = 0 ∧
    (get_prices (get_prices ⟨[], [], []⟩ ⟨⟨2025, 11, 18⟩, 100⟩ ⟨Except.ok "h", Except.ok "g"⟩
      "P" "X" 23 (some ⟨2025, 11, 18⟩) false).state ⟨⟨2025, 11, 18⟩, 200⟩
      ⟨Except.ok "x", Except.ok "y"⟩ "P" "X" 23 (some ⟨2025, 11, 18⟩) false).historicalFetches =
      0 ∧
    (get_prices (get_prices ⟨[], [], []⟩ ⟨⟨2025, 11, 18⟩, 100⟩ ⟨Except.ok "h", Except.ok "g"⟩
      "P" "X" 23 (some ⟨2025, 11, 18⟩) false).state ⟨⟨2025, 11, 18⟩, 200⟩
      ⟨Except.ok "x", Except.ok "y"⟩ "P" "X" 23 (some ⟨2025, 11, 18⟩) false).state =
      (get_prices ⟨[], [], []⟩ ⟨⟨2025, 11, 18⟩, 100⟩ ⟨Except.ok "h", Except.ok "g"⟩
      "P" "X" 23 (some ⟨2025, 11, 18⟩) false).state :=
  claim5_idempotent ⟨[], [], []⟩ ⟨⟨2025, 11, 18⟩, 100⟩ ⟨⟨2025, 11, 18⟩, 200⟩
    ⟨Except.ok "h", Except.ok "g"⟩ ⟨Except.ok "x", Except.ok "y"⟩ "P" "X" 23
    ⟨2025, 11, 18⟩ "h" "g" rfl rfl rfl rfl (by decide)

/-- A today call whose local file is nonempty but incomplete falls
through to the live fetch. -/
theorem gp_body_today_incomplete (st : FetcherState) (clock : Clock) (env : FetchEnv)
    (p t : String) (v : Int) (c cc : String)
    (hload : load_from_local st clock.today = some c) (hne : c ≠ "")
    (hlt : (filterToDate (parse_csv c p t v) clock.today).length < 96)
    (he : env.current = Except.ok cc) :
    gpBody st clock env p t v clock.today false =
      gpAfterFetch st clock p t v clock.today cc 1 0 := by
  unfold gpBody
  rw [dateLt_irrefl clock.today]
  simp only [Bool.false_eq_true, if_false]
  rw [if_pos (show True ∧ ¬False from ⟨trivial, by simp⟩)]
  rw [hload]
  dsimp only
  rw [if_pos hne, if_neg (by omega)]
  unfold gpFetchLive
  rw [he]

/-! ### Claim C9 -/

/-- Claim C9 (confirmed): the cache expiry timestamp is kept per date
key only.  First conjunct: every memory-cache store for a date stamps
`_cache_times[date]` with the current time, whatever pair is stored.
Second conjunct: after a (provider1, tariff) resolution at `t0` and a
(provider2, tariff) resolution for the same date at `t1`, a third call
for (provider1, tariff) at `t2` — more than the 1-hour TTL after `t0`
but within the TTL of `t1` — is served from the memory cache with the
first call's result and no fetch. -/
theorem claim9_shared_expiry :
    (∀ (st : FetcherState) (now : Nat) (dk k : String) (vprices : List PriceEntry),
      alookup dk (cachePutRaw st now dk k vprices).cacheTimes = some now) ∧
    (∀ (t0 t1 t2 : Nat) (env3 : FetchEnv),
      t1 - t0 < CACHE_DURATION → t2 - t1 < CACHE_DURATION → CACHE_DURATION ≤ t2 - t0 →
      (get_prices (get_prices (get_prices ⟨[], [], []⟩ ⟨⟨2025, 11, 18⟩, t0⟩
          ⟨Except.ok "h", Except.ok "h"⟩ "EDP" "X" 23 (some ⟨2025, 11, 18⟩) false).state
          ⟨⟨2025, 11, 18⟩, t1⟩ ⟨Except.ok "h", Except.ok "h"⟩ "Galp" "X" 23
          (some ⟨2025, 11, 18⟩) false).state
        ⟨⟨2025, 11, 18⟩, t2⟩ env3 "EDP" "X" 23 (some ⟨2025, 11, 18⟩) false).result =
        (get_prices ⟨[], [], []⟩ ⟨⟨2025, 11, 18⟩, t0⟩ ⟨Except.ok "h", Except.ok "h"⟩
          "EDP" "X" 23 (some ⟨2025, 11, 18⟩) false).result ∧
      (get_prices (get_prices (get_prices ⟨[], [], []⟩ ⟨⟨2025, 11, 18⟩, t0⟩
          ⟨Except.ok "h", Except.ok "h"⟩ "EDP" "X" 23 (some ⟨2025, 11, 18⟩) false).state
          ⟨⟨2025, 11, 18⟩, t1⟩ ⟨Except.ok "h", Except.ok "h"⟩ "Galp" "X" 23
          (some ⟨2025, 11, 18⟩) false).state
        ⟨⟨2025, 11, 18⟩, t2⟩ env3 "EDP" "X" 23 (some ⟨2025, 11, 18⟩) false).currentFetches =
        0 ∧
      (get_prices (get_prices (get_prices ⟨[], [], []⟩ ⟨⟨2025, 11, 18⟩, t0⟩
          ⟨Except.ok "h", Except.ok "h"⟩ "EDP" "X" 23 (some ⟨2025, 11, 18⟩) false).state
          ⟨⟨2025, 11, 18⟩, t1⟩ ⟨Except.ok "h", Except.ok "h"⟩ "Galp" "X" 23
          (some ⟨2025, 11, 18⟩) false).state
        ⟨⟨2025, 11, 18⟩, t2⟩ env3 "EDP" "X" 23
          (some ⟨2025, 11, 18⟩) false).historicalFetches = 0) := by
  constructor
  · intro st now dk k vprices
    unfold cachePutRaw
    exact alookup_ainsert _ _ _
  · intro t0 t1 t2 env3 h01 h12 h02
    set r1 := get_prices ⟨[], [], []⟩ ⟨⟨2025, 11, 18⟩, t0⟩ ⟨Except.ok "h", Except.ok "h"⟩
      "EDP" "X" 23 (some ⟨2025, 11, 18⟩) false with hr1def
    set r2 := get_prices r1.state ⟨⟨2025, 11, 18⟩, t1⟩ ⟨Except.ok "h", Except.ok "h"⟩
      "Galp" "X" 23 (some ⟨2025, 11, 18⟩) false with hr2def
    set r3 := get_prices r2.state ⟨⟨2025, 11, 18⟩, t2⟩ env3
      "EDP" "X" 23 (some ⟨2025, 11, 18⟩) false with hr3def
    have hroute1 : r1 = gpAfterFetch ⟨[], [], []⟩ ⟨⟨2025, 11, 18⟩, t0⟩ "EDP" "X" 23
        ⟨2025, 11, 18⟩ "h" 1 0 := by
      rw [hr1def]
      exact gp_fresh_nonpast _ _ _ _ _ _ _ _ rfl rfl rfl (dateLt_irrefl _)
    have hfacts1 := gpAfterFetch_cacheStore ⟨[], [], []⟩ ⟨⟨2025, 11, 18⟩, t0⟩ "EDP" "X" 23
      ⟨2025, 11, 18⟩ "h" 1 0
    have hwb1 := gpAfterFetch_writeback ⟨[], [], []⟩ ⟨⟨2025, 11, 18⟩, t0⟩ "EDP" "X" 23
      ⟨2025, 11, 18⟩ "h" 1 0 (dateLt_irrefl _) (Or.inl rfl)
    have hOC1 : overwriteCond ⟨[], [], []⟩ "EDP" "X" 23 ⟨2025, 11, 18⟩
        (filterToDate (parse_csv "h" "EDP" "X" 23) ⟨2025, 11, 18⟩).length := by
      unfold overwriteCond
      trivial
    have hstore1 : alookup (localFileName ⟨2025, 11, 18⟩) r1.state.localStore = some "h" := by
      rw [hroute1]
      exact hwb1.2.2.2.1 hOC1
    have hload1 : load_from_local r1.state ⟨2025, 11, 18⟩ = some "h" := by
      unfold load_from_local
      rw [hstore1]
      rfl
    have hc1 : alookup (dateKeyStr ⟨2025, 11, 18⟩) r1.state.cache =
        some [("EDP_X", [])] := by
      rw [hroute1, hfacts1.2.2.2.1]
      rfl
    have ht1 : alookup (dateKeyStr ⟨2025, 11, 18⟩) r1.state.cacheTimes = some t0 := by
      rw [hroute1, hfacts1.2.2.2.2]
      exact alookup_ainsert _ _ _
    have hres1 : r1.result = Except.ok [] := by
      rw [hroute1, hfacts1.1]
      rfl
    have hroute2 : r2 = gpAfterFetch r1.state ⟨⟨2025, 11, 18⟩, t1⟩ "Galp" "X" 23
        ⟨2025, 11, 18⟩ "h" 1 0 := by
      rw [hr2def]
      rw [gp_cache_hit_missing_pair r1.state ⟨⟨2025, 11, 18⟩, t1⟩
        ⟨Except.ok "h", Except.ok "h"⟩ "Galp" "X" 23 ⟨2025, 11, 18⟩ [("EDP_X", [])] t0
        hc1 (by simp) rfl ht1 h01]
      exact gp_body_today_incomplete r1.state ⟨⟨2025, 11, 18⟩, t1⟩
        ⟨Except.ok "h", Except.ok "h"⟩ "Galp" "X" 23 "h" "h" hload1 (by decide)
        (by show (filterToDate (parse_csv "h" "Galp" "X" 23)
          (⟨2025, 11, 18⟩ : DateD)).length < 96
            decide) rfl
    have hfacts2 := gpAfterFetch_cacheStore r1.state ⟨⟨2025, 11, 18⟩, t1⟩ "Galp" "X" 23
      ⟨2025, 11, 18⟩ "h" 1 0
    have hc2 : alookup (dateKeyStr ⟨2025, 11, 18⟩) r2.state.cache =
        some [("EDP_X", []), ("Galp_X", [])] := by
      rw [hroute2, hfacts2.2.2.2.1, alookup_ainsert, hc1]
      rfl
    have ht2 : alookup (dateKeyStr ⟨2025, 11, 18⟩) r2.state.cacheTimes = some t1 := by
      rw [hroute2, hfacts2.2.2.2.2]
      exact alookup_ainsert _ _ _
    have hr3 : r3 = ⟨Except.ok [], r2.state, 0, 0⟩ := by
      rw [hr3def]
      exact gp_cache_hit r2.state ⟨⟨2025, 11, 18⟩, t2⟩ env3 "EDP" "X" 23 ⟨2025, 11, 18⟩ []
        [("EDP_X", []), ("Galp_X", [])] t1 hc2 (by simp) rfl ht2 h12
    rw [hr3, hres1]
    exact ⟨rfl, rfl, rfl⟩

/-- Claim C9 witness: the scenario at `t0 = 0`, `t1 = 3000`,
`t2 = 5000`: the entry written at 0 is served at 5000, more than an
hour later, because the second pair's store refreshed the shared
per-date timestamp. -/
theorem claim9_witness :
    (get_prices (get_prices (get_prices ⟨[], [], []⟩ ⟨⟨2025, 11, 18⟩, 0⟩
        ⟨Except.ok "h", Except.ok "h"⟩ "EDP" "X" 23 (some ⟨2025, 11, 18⟩) false).state
        ⟨⟨2025, 11, 18⟩, 3000⟩ ⟨Except.ok "h", Except.ok "h"⟩ "Galp" "X" 23
        (some ⟨2025, 11, 18⟩) false).state
      ⟨⟨2025, 11, 18⟩, 5000⟩ ⟨Except.ok "q", Except.ok "r"⟩ "EDP" "X" 23
        (some ⟨2025, 11, 18⟩) false).result =
      (get_prices ⟨[], [], []⟩ ⟨⟨2025, 11, 18⟩, 0⟩ ⟨Except.ok "h", Except.ok "h"⟩
        "EDP" "X" 23 (some ⟨2025, 11, 18⟩) false).result ∧
    (get_prices (get_prices (get_prices ⟨[], [], []⟩ ⟨⟨2025, 11, 18⟩, 0⟩
        ⟨Except.ok "h", Except.ok "h"⟩ "EDP" "X" 23 (some ⟨2025, 11, 18⟩) false).state
        ⟨⟨2025, 11, 18⟩, 3000⟩ ⟨Except.ok "h", Except.ok "h"⟩ "Galp" "X" 23
        (some ⟨2025, 11, 18⟩) false).state
      ⟨⟨2025, 11, 18⟩, 5000⟩ ⟨Except.ok "q", Except.ok "r"⟩ "EDP" "X" 23
        (some ⟨2025, 11, 18⟩) false).currentFetches = 0 ∧
    (get_prices (get_prices (get_prices ⟨[], [], []⟩ ⟨⟨2025, 11, 18⟩, 0⟩
        ⟨Except.ok "h", Except.ok "h"⟩ "EDP" "X" 23 (some ⟨2025, 11, 18⟩) false).state
        ⟨⟨2025, 11, 18⟩, 3000⟩ ⟨Except.ok "h", Except.ok "h"⟩ "Galp" "X" 23
        (some ⟨2025, 11, 18⟩) false).state
      ⟨⟨2025, 11, 18⟩, 5000⟩ ⟨Except.ok "q", Except.ok "r"⟩ "EDP" "X" 23
        (some ⟨2025, 11, 18⟩) false).historicalFetches = 0 :=
  claim9_shared_expiry.2 0 3000 5000 ⟨Except.ok "q", Except.ok "r"⟩
    (by decide) (by decide) (by decide)

/-! ### Claim C10 -/

/-- Claim C10 (confirmed): when a non-past resolution completes with
zero entries matching the requested provider/tariff/date, `get_prices`
returns the empty list after one live fetch, caches the empty list
under the (date, provider_tariff) key, and a subsequent call with the
same key, `bypass_cache = false` and less than the TTL elapsed returns
the empty list from the memory cache with no fetch on either channel. -/
theorem claim10_empty_result_cached (st : FetcherState) (clock1 clock2 : Clock)
    (env1 env2 : FetchEnv) (p t : String) (v : Int) (target : DateD) (cc : String)
    (h0 : st.cache = []) (h1 : st.localStore = [])
    (he1 : env1.current = Except.ok cc)
    (hNP : dateLt target clock1.today = false)
    (hz : filterToDate (parse_csv cc p t v) target = [])
    (hT : clock2.time - clock1.time < CACHE_DURATION) :
    (get_prices st clock1 env1 p t v (some target) false).result = Except.ok [] ∧
    (get_prices st clock1 env1 p t v (some target) false).currentFetches = 1 ∧
    (get_prices st clock1 env1 p t v (some target) false).historicalFetches = 0 ∧
    alookup (p ++ "_" ++ t)
      ((alookup (dateKeyStr target)
        (get_prices st clock1 env1 p t v (some target) false).state.cache).getD []) =
      some [] ∧
    (get_prices (get_prices st clock1 env1 p t v (some target) false).state clock2 env2
      p t v (some target) false).result = Except.ok [] ∧
    (get_prices (get_prices st clock1 env1 p t v (some target) false).state clock2 env2
      p t v (some target) false).currentFetches = 0 ∧
    (get_prices (get_prices st clock1 env1 p t v (some target) false).state clock2 env2
      p t v (some target) false).historicalFetches = 0 := by
  have hr1 := gp_fresh_nonpast st clock1 env1 p t v target cc h0 h1 he1 hNP
  have hfacts := gpAfterFetch_cacheStore st clock1 p t v target cc 1 0
  have hc1 : (get_prices st clock1 env1 p t v (some target) false).state.cache =
      [(dateKeyStr target, [(p ++ "_" ++ t, [])])] := by
    rw [hr1, hfacts.2.2.2.1, h0, hz]
    rfl
  have ht1 : alookup (dateKeyStr target)
      (get_prices st clock1 env1 p t v (some target) false).state.cacheTimes =
      some clock1.time := by
    rw [hr1, hfacts.2.2.2.2]
    exact alookup_ainsert _ _ _
  have hres1 : (get_prices st clock1 env1 p t v (some target) false).result =
      Except.ok [] := by
    rw [hr1, hfacts.1, hz]
  have hr2 := gp_cache_hit (get_prices st clock1 env1 p t v (some target) false).state
    clock2 env2 p t v target [] [(p ++ "_" ++ t, [])] clock1.time
    (by rw [hc1]; simp [alookup]) (by simp) (by simp [alookup]) ht1 hT
  refine ⟨hres1, ?_, ?_, ?_, ?_, ?_, ?_⟩
  · rw [hr1, hfacts.2.1]
  · rw [hr1, hfacts.2.2.1]
  · rw [hc1]
    simp [alookup]
  · rw [hr2]
  · rw [hr2]
  · rw [hr2]

/-- Claim C10 witness: a live payload that parses to no matching rows,
first call at time 100, second at time 200. -/
theorem claim10_witness :
    (get_prices ⟨[], [], []⟩ ⟨⟨2025, 11, 18⟩, 100⟩ ⟨Except.ok "h", Except.ok "g"⟩
      "NoSuchProvider" "X" 23 (some ⟨2025, 11, 18⟩) false).result = Except.ok [] ∧
    (get_prices ⟨[], [], []⟩ ⟨⟨2025, 11, 18⟩, 100⟩ ⟨Except.ok "h", Except.ok "g"⟩
      "NoSuchProvider" "X" 23 (some ⟨2025, 11, 18⟩) false).currentFetches = 1 ∧
    (get_prices ⟨[], [], []⟩ ⟨⟨2025, 11, 18⟩, 100⟩ ⟨Except.ok "h", Except.ok "g"⟩
      "NoSuchProvider" "X" 23 (some ⟨2025, 11, 18⟩) false).historicalFetches = 0 ∧
    alookup ("NoSuchProvider" ++ "_" ++ "X")
      ((alookup (dateKeyStr ⟨2025, 11, 18⟩)
        (get_prices ⟨[], [], []⟩ ⟨⟨2025, 11, 18⟩, 100⟩ ⟨Except.ok "h", Except.ok "g"⟩
          "NoSuchProvider" "X" 23 (some ⟨2025, 11, 18⟩) false).state.cache).getD []) =
      some [] ∧
    (get_prices (get_prices ⟨[], [], []⟩ ⟨⟨2025, 11, 18⟩, 100⟩ ⟨Except.ok "h", Except.ok "g"⟩
      "NoSuchProvider" "X" 23 (some ⟨2025, 11, 18⟩) false).state ⟨⟨2025, 11, 18⟩, 200⟩
      ⟨Except.ok "x", Except.ok "y"⟩ "NoSuchProvider" "X" 23
      (some ⟨2025, 11, 18⟩) false).result = Except.ok [] ∧
    (get_prices (get_prices ⟨[], [], []⟩ ⟨⟨2025, 11, 18⟩, 100⟩ ⟨Except.ok "h", Except.ok "g"⟩
      "NoSuchProvider" "X" 23 (some ⟨2025, 11, 18⟩) false).state ⟨⟨2025, 11, 18⟩, 200⟩
      ⟨Except.ok "x", Except.ok "y"⟩ "NoSuchProvider" "X" 23
      (some ⟨2025, 11, 18⟩) false).currentFetches = 0 ∧
    (get_prices (get_prices ⟨[], [], []⟩ ⟨⟨2025, 11, 18⟩, 100⟩ ⟨Except.ok "h", Except.ok "g"⟩
      "NoSuchProvider" "X" 23 (some ⟨2025, 11, 18⟩) false).state ⟨⟨2025, 11, 18⟩, 200⟩
      ⟨Except.ok "x", Except.ok "y"⟩ "NoSuchProvider" "X" 23
      (some ⟨2025, 11, 18⟩) false).historicalFetches = 0 :=
  claim10_empty_result_cached ⟨[], [], []⟩ ⟨⟨2025, 11, 18⟩, 100⟩ ⟨⟨2025, 11, 18⟩, 200⟩
    ⟨Except.ok "h", Except.ok "g"⟩ ⟨Except.ok "x", Except.ok "y"⟩ "NoSuchProvider" "X" 23
    ⟨2025, 11, 18⟩ "h" rfl rfl rfl (by decide) rfl (by decide)
